import Mathlib

/-!
Verification development for a MongoDB driver prototype.

Part 1 models the server-discovery-and-monitoring (SDAM) engine: the Server
Description data model, the Topology Description, and the topology update
algorithm.  The driver's `mongodb::topology` module itself is not part of the
sources available here (only its test harness `tests/client/sdam/framework.rs`
is), so these definitions are modelled from the specification document
(spec.md sections 3, 4.1 and 4.2).

Part 2 models the query cursor, translated directly from `src/cursor.rs`.
-/

/- ===================== Part 1: SDAM data model ===================== -/

/-- Host+port identity of a monitored node (spec section 3). -/
abbrev Address := String

/-- Role of one node as inferred from its latest heartbeat (spec section 3). -/
inductive ServerType where
  | Unknown
  | Standalone
  | Mongos
  | RSPrimary
  | RSSecondary
  | RSArbiter
  | RSOther
  | RSGhost
  | PossiblePrimary
  deriving DecidableEq, Repr

/-- The driver's belief about the shape of the deployment (spec section 3). -/
inductive TopologyType where
  | Unknown
  | Single
  | ReplicaSetNoPrimary
  | ReplicaSetWithPrimary
  | Sharded
  deriving DecidableEq, Repr

/-- Modelled from the spec: immutable snapshot of one node's observed state
(spec section 3, "Server Description").  The `mongodb::topology::server`
module is missing from the sources; fields follow the spec's data model. -/
structure ServerDescription where
  address : Address
  stype : ServerType
  set_name : Option String
  set_version : Option Nat
  election_id : Option Nat
  hosts : List Address
  passives : List Address
  arbiters : List Address
  min_wire_version : Nat
  max_wire_version : Nat
  round_trip_time : Option Nat
  last_update_time : Nat
  last_error : Option String
  deriving DecidableEq, Repr

/-- The default description of a node nothing is known about: type `Unknown`
with all membership and version data cleared (spec section 3 invariant). -/
def freshUnknown (a : Address) : ServerDescription :=
  { address := a
    stype := ServerType.Unknown
    set_name := none
    set_version := none
    election_id := none
    hosts := []
    passives := []
    arbiters := []
    min_wire_version := 0
    max_wire_version := 0
    round_trip_time := none
    last_update_time := 0
    last_error := none }

/-- Modelled from the spec: `ServerDescription::set_err` (used by the test
harness at framework.rs:44) records a failed heartbeat: the node becomes
`Unknown`, `last_error` is set, and all versioned/membership fields are
cleared (spec section 4.1, "On failure"). -/
def ServerDescription.set_err (d : ServerDescription) (e : String) : ServerDescription :=
  { freshUnknown d.address with last_error := some e }

/-- Modelled from the spec: a parsed heartbeat reply (`IsMasterResult`,
spec section 6, "Heartbeat Source").  `ok` is false for a reply that fails
protocol-level validation. -/
structure IsMasterResult where
  ok : Bool
  ismaster : Bool
  secondary : Bool
  arbiter_only : Bool
  is_replica_set : Bool
  msg : String
  set_name : Option String
  set_version : Option Nat
  election_id : Option Nat
  hosts : List Address
  passives : List Address
  arbiters : List Address
  min_wire_version : Nat
  max_wire_version : Nat
  deriving DecidableEq, Repr

/-- Modelled from the spec: server classification from a heartbeat reply
(spec section 4.1).  A router (`msg = "isdbgrid"`) and a ghost
(`isreplicaset` with no `setName`) are recognised before the
`ismaster`/`secondary`/`arbiterOnly` roles, which only apply to members
reporting a `setName`; a reply with none of these markers is a standalone. -/
def serverTypeOfReply (r : IsMasterResult) : ServerType :=
  if r.ok = false then ServerType.Unknown
  else if r.msg = "isdbgrid" then ServerType.Mongos
  else
    match r.set_name with
    | some _ =>
        if r.ismaster then ServerType.RSPrimary
        else if r.secondary then ServerType.RSSecondary
        else if r.arbiter_only then ServerType.RSArbiter
        else ServerType.RSOther
    | none =>
        if r.is_replica_set then ServerType.RSGhost
        else ServerType.Standalone

/-- Modelled from the spec: `ServerDescription::update` (used by the test
harness at framework.rs:50) rebuilds the whole description from one
heartbeat reply; nothing of the previous description except the node's
address identity survives (spec section 3, "replaced wholesale"). -/
def ServerDescription.update (d : ServerDescription) (r : IsMasterResult) : ServerDescription :=
  if serverTypeOfReply r = ServerType.Unknown then
    { freshUnknown d.address with last_error := some "invalid ismaster reply" }
  else
    { address := d.address
      stype := serverTypeOfReply r
      set_name := r.set_name
      set_version := r.set_version
      election_id := r.election_id
      hosts := r.hosts
      passives := r.passives
      arbiters := r.arbiters
      min_wire_version := r.min_wire_version
      max_wire_version := r.max_wire_version
      round_trip_time := none
      last_update_time := 0
      last_error := none }

/- Association-list helpers for the `servers` map of a Topology Description. -/

/-- Look up the latest description recorded for an address. -/
def lookupSrv : List (Address × ServerDescription) → Address → Option ServerDescription
  | [], _ => none
  | p :: rest, a => if p.1 = a then some p.2 else lookupSrv rest a

/-- Whether the topology currently tracks an address. -/
def hasSrv (l : List (Address × ServerDescription)) (a : Address) : Bool :=
  (lookupSrv l a).isSome

/-- Install a description for an address: replace the existing entry in
place, or append a new entry. -/
def setSrv : List (Address × ServerDescription) → Address → ServerDescription →
    List (Address × ServerDescription)
  | [], a, d => [(a, d)]
  | p :: rest, a, d => if p.1 = a then (a, d) :: rest else p :: setSrv rest a d

/-- Remove every entry recorded for an address. -/
def removeSrv : List (Address × ServerDescription) → Address → List (Address × ServerDescription)
  | [], _ => []
  | p :: rest, a => if p.1 = a then removeSrv rest a else p :: removeSrv rest a

/-- The addresses currently tracked, in map order. -/
def srvAddresses : List (Address × ServerDescription) → List Address
  | [] => []
  | p :: rest => p.1 :: srvAddresses rest

/-- How many tracked servers are currently marked `RSPrimary`. -/
def primCount (l : List (Address × ServerDescription)) : Nat :=
  l.countP (fun p => decide (p.2.stype = ServerType.RSPrimary))

/-- Whether some tracked server is currently marked `RSPrimary`. -/
def anyPrimary (l : List (Address × ServerDescription)) : Bool :=
  l.any (fun p => decide (p.2.stype = ServerType.RSPrimary))

/-- Modelled from the spec: after editing the member map of a replica-set
topology, the topology type is `ReplicaSetWithPrimary` exactly when a
primary is present (spec section 3 invariant; rules 5, 6 and 8 of
section 4.2). -/
def checkIfHasPrimary (l : List (Address × ServerDescription)) : TopologyType :=
  if anyPrimary l then TopologyType.ReplicaSetWithPrimary else TopologyType.ReplicaSetNoPrimary

/-- Order on optional monotonic markers: an absent marker is older than any
present one. -/
def optNatLt : Option Nat → Option Nat → Bool
  | none, none => false
  | none, some _ => true
  | some _, none => false
  | some a, some b => decide (a < b)

/-- Lexicographic strict order on `(set_version, election_id)` pairs,
used to detect stale primaries (spec sections 3 and 4.2 rule 5). -/
def pairLt (sv1 eid1 sv2 eid2 : Option Nat) : Bool :=
  optNatLt sv1 sv2 || (decide (sv1 = sv2) && optNatLt eid1 eid2)

/-- Modelled from the spec: the authoritative shared belief about the whole
deployment (spec section 3, "Topology Description").  `single_seed` records
whether the deployment handle was configured with exactly one seed, which
rule 2 of the update algorithm consults. -/
structure TopologyDescription where
  ttype : TopologyType
  set_name : Option String
  max_set_version : Option Nat
  max_election_id : Option Nat
  single_seed : Bool
  servers : List (Address × ServerDescription)
  deriving DecidableEq, Repr

/-- Whether an incoming member reports a replica-set name that mismatches
the name already recorded on the topology (spec section 4.2 rule 4). -/
def nameMismatch (t : TopologyDescription) (sd : ServerDescription) : Bool :=
  match t.set_name with
  | none => false
  | some s => decide (sd.set_name ≠ some s)

/-- Record the replica-set name the first time it is learned; once set it is
never overwritten (spec section 3). -/
def recordName (t : TopologyDescription) (sd : ServerDescription) : TopologyDescription :=
  match t.set_name with
  | none => { t with set_name := sd.set_name }
  | some _ => t

/-- Drop a server that does not belong to this deployment from the member
map and queue it for removal (spec section 4.2 rule 4). -/
def dropServer (t : TopologyDescription) (addr : Address) :
    TopologyDescription × List Address × List Address :=
  ({ t with
      ttype := checkIfHasPrimary (removeSrv t.servers addr)
      servers := removeSrv t.servers addr }, [], [addr])

/-- The union of the membership lists a server reports:
`hosts`/`passives`/`arbiters` (spec section 4.2 rules 3, 5 and 6). -/
def reportedHosts (sd : ServerDescription) : List Address :=
  (sd.hosts ++ sd.passives ++ sd.arbiters).dedup

/-- The addresses a primary's accepted update leaves tracked: the primary's
own address together with the membership it reports. -/
def keepList (addr : Address) (sd : ServerDescription) : List Address :=
  (addr :: reportedHosts sd).dedup

/-- The description each kept address carries after a primary's update is
accepted: the primary's own entry becomes `sd` (demoted to `Unknown` when
the primary does not appear in its own membership lists, spec section 4.2
rule 8), any other server still marked `RSPrimary` is demoted to `Unknown`
(rule 5), other tracked entries are kept, and newly discovered addresses
start as `Unknown`. -/
def primaryRebuildEntry (t : TopologyDescription) (addr : Address) (sd : ServerDescription)
    (a : Address) : ServerDescription :=
  if a = addr then (if addr ∈ reportedHosts sd then sd else freshUnknown addr)
  else
    match lookupSrv t.servers a with
    | some d => if d.stype = ServerType.RSPrimary then freshUnknown a else d
    | none => freshUnknown a

/-- The member map after a primary's update is accepted. -/
def primaryRebuild (t : TopologyDescription) (addr : Address) (sd : ServerDescription) :
    List (Address × ServerDescription) :=
  (keepList addr sd).map (fun a => (a, primaryRebuildEntry t addr sd a))

/-- Modelled from the spec: handling of an incoming `RSPrimary` description
(spec section 4.2 rules 4, 5 and 8).  A mismatching set name drops the
server; a stale `(set_version, election_id)` pair demotes the incoming
entry to `Unknown`; otherwise the new maximum is recorded, every other
primary is demoted, the member map is rebuilt from the primary's reported
membership (tracked entries kept, newly discovered addresses added as
`Unknown`, unreported addresses queued for removal), and a primary absent
from its own membership lists is demoted with the topology reverting to
`ReplicaSetNoPrimary`. -/
def updateRSFromPrimary (t : TopologyDescription) (addr : Address) (sd : ServerDescription) :
    TopologyDescription × List Address × List Address :=
  if nameMismatch t sd then dropServer t addr
  else if pairLt sd.set_version sd.election_id t.max_set_version t.max_election_id then
    ({ recordName t sd with
        ttype := checkIfHasPrimary (setSrv t.servers addr (freshUnknown addr))
        servers := setSrv t.servers addr (freshUnknown addr) }, [], [])
  else
    ({ recordName t sd with
        ttype := checkIfHasPrimary (primaryRebuild t addr sd)
        max_set_version := sd.set_version
        max_election_id := sd.election_id
        servers := primaryRebuild t addr sd },
      (keepList addr sd).filter (fun a => !hasSrv t.servers a),
      (srvAddresses t.servers).filter (fun a => !(decide (a ∈ keepList addr sd))))

/-- The newly discovered addresses a non-primary member's update merges
into the tracked set (spec section 4.2 rule 6: additions only). -/
def memberAdds (t : TopologyDescription) (addr : Address) (sd : ServerDescription) :
    List Address :=
  (reportedHosts sd).filter (fun a => !hasSrv (setSrv t.servers addr sd) a)

/-- The member map after a non-primary member's update. -/
def memberRebuild (t : TopologyDescription) (addr : Address) (sd : ServerDescription) :
    List (Address × ServerDescription) :=
  setSrv t.servers addr sd ++ (memberAdds t addr sd).map (fun a => (a, freshUnknown a))

/-- Modelled from the spec: handling of an incoming
`RSSecondary`/`RSArbiter`/`RSOther` description (spec section 4.2 rules 4
and 6).  A mismatching set name drops the server; otherwise its reported
membership is merged into the tracked set (additions only) and the
topology type is recomputed from the presence of a primary. -/
def updateRSMember (t : TopologyDescription) (addr : Address) (sd : ServerDescription) :
    TopologyDescription × List Address × List Address :=
  if nameMismatch t sd then dropServer t addr
  else
    ({ recordName t sd with
        ttype := checkIfHasPrimary (memberRebuild t addr sd)
        servers := memberRebuild t addr sd }, memberAdds t addr sd, [])

/-- Modelled from the spec: the topology update algorithm, the pure function
`update(current_topology, address, new_server_description) ->
(new_topology, additions, removals)` of spec section 4.2.  The
`mongodb::topology` implementation is missing from the sources (its only
caller here is the test harness framework.rs:61); this definition follows
rules 1-9 of section 4.2, completed where the spec is silent by the
invariants it declares: updates for untracked addresses are ignored
(rule 1; seed addresses are tracked from construction), a `Sharded`
topology keeps only routers and unreachable nodes, and replica-set
topology types are recomputed via `checkIfHasPrimary` after every map
edit so that `ReplicaSetWithPrimary` holds exactly when a primary is
present. -/
def TopologyDescription.update (t : TopologyDescription) (addr : Address) (sd : ServerDescription) :
    TopologyDescription × List Address × List Address :=
  if hasSrv t.servers addr then
    match t.ttype, sd.stype with
    | TopologyType.Single, _ =>
        ({ t with servers := setSrv t.servers addr sd }, [], [])
    | TopologyType.Sharded, ServerType.Mongos
    | TopologyType.Sharded, ServerType.Unknown
    | TopologyType.Sharded, ServerType.RSGhost
    | TopologyType.Sharded, ServerType.PossiblePrimary =>
        ({ t with servers := setSrv t.servers addr sd }, [], [])
    | TopologyType.Sharded, _ =>
        ({ t with servers := removeSrv t.servers addr }, [], [addr])
    | TopologyType.Unknown, ServerType.Unknown
    | TopologyType.Unknown, ServerType.RSGhost
    | TopologyType.Unknown, ServerType.PossiblePrimary =>
        ({ t with servers := setSrv t.servers addr sd }, [], [])
    | TopologyType.Unknown, ServerType.Standalone =>
        if t.single_seed then
          ({ t with ttype := TopologyType.Single, servers := setSrv t.servers addr sd }, [], [])
        else
          ({ t with servers := removeSrv t.servers addr }, [], [addr])
    | TopologyType.Unknown, ServerType.Mongos =>
        ({ t with ttype := TopologyType.Sharded, servers := setSrv t.servers addr sd }, [], [])
    | TopologyType.Unknown, ServerType.RSPrimary => updateRSFromPrimary t addr sd
    | TopologyType.Unknown, _ => updateRSMember t addr sd
    | TopologyType.ReplicaSetNoPrimary, ServerType.Unknown
    | TopologyType.ReplicaSetNoPrimary, ServerType.RSGhost
    | TopologyType.ReplicaSetNoPrimary, ServerType.PossiblePrimary
    | TopologyType.ReplicaSetWithPrimary, ServerType.Unknown
    | TopologyType.ReplicaSetWithPrimary, ServerType.RSGhost
    | TopologyType.ReplicaSetWithPrimary, ServerType.PossiblePrimary =>
        let m := setSrv t.servers addr sd
        ({ t with ttype := checkIfHasPrimary m, servers := m }, [], [])
    | TopologyType.ReplicaSetNoPrimary, ServerType.Standalone
    | TopologyType.ReplicaSetNoPrimary, ServerType.Mongos
    | TopologyType.ReplicaSetWithPrimary, ServerType.Standalone
    | TopologyType.ReplicaSetWithPrimary, ServerType.Mongos =>
        dropServer t addr
    | TopologyType.ReplicaSetNoPrimary, ServerType.RSPrimary
    | TopologyType.ReplicaSetWithPrimary, ServerType.RSPrimary =>
        updateRSFromPrimary t addr sd
    | TopologyType.ReplicaSetNoPrimary, _
    | TopologyType.ReplicaSetWithPrimary, _ =>
        updateRSMember t addr sd
  else (t, [], [])

/-- Modelled from the spec: the Topology Description a deployment handle is
constructed with (spec section 4.4): an explicit replica-set name gives
`ReplicaSetNoPrimary`, otherwise `Unknown`; one `Unknown` server per seed
address. -/
def initialTopology (seeds : List Address) (rsName : Option String) : TopologyDescription :=
  { ttype := match rsName with
      | some _ => TopologyType.ReplicaSetNoPrimary
      | none => TopologyType.Unknown
    set_name := rsName
    max_set_version := none
    max_election_id := none
    single_seed := decide (seeds.length = 1)
    servers := seeds.dedup.map (fun a => (a, freshUnknown a)) }

/-- Fold a sequence of heartbeat-produced server descriptions into a
Topology Description through the update algorithm. -/
def applyAll (t : TopologyDescription) : List (Address × ServerDescription) → TopologyDescription
  | [] => t
  | u :: rest => applyAll (TopologyDescription.update t u.1 u.2).1 rest

/-- The structural invariant of a Topology Description: tracked addresses
are distinct, at most one tracked server is marked `RSPrimary`, in an
`Unknown` single-seed or `Single` topology at most one server is tracked,
and a replica-set topology type is `ReplicaSetWithPrimary` exactly when a
primary is present. -/
def TopologyInv (t : TopologyDescription) : Prop :=
  (srvAddresses t.servers).Nodup
  ∧ primCount t.servers ≤ 1
  ∧ (t.ttype = TopologyType.Unknown → t.single_seed = true → t.servers.length ≤ 1)
  ∧ (t.ttype = TopologyType.Single → t.servers.length ≤ 1)
  ∧ ((t.ttype = TopologyType.ReplicaSetNoPrimary ∨ t.ttype = TopologyType.ReplicaSetWithPrimary) →
      t.ttype = checkIfHasPrimary t.servers)

instance (t : TopologyDescription) : Decidable (TopologyInv t) := by
  unfold TopologyInv
  infer_instance

/-- A description a heartbeat can actually produce: the roles that carry no
membership report no replica-set name (spec section 4.1). -/
def WellFormedDesc (sd : ServerDescription) : Prop :=
  (sd.stype = ServerType.Unknown ∨ sd.stype = ServerType.RSGhost ∨
    sd.stype = ServerType.PossiblePrimary) → sd.set_name = none

instance (sd : ServerDescription) : Decidable (WellFormedDesc sd) := by
  unfold WellFormedDesc
  infer_instance

/- Concrete descriptions and topologies used to exercise the update
algorithm in closed statements. -/

/-- A primary's heartbeat-produced description. -/
def exPrimary (a : Address) (nm : String) (sv eid : Nat) (hs : List Address) :
    ServerDescription :=
  { freshUnknown a with
      stype := ServerType.RSPrimary
      set_name := some nm
      set_version := some sv
      election_id := some eid
      hosts := hs }

/-- A secondary's heartbeat-produced description. -/
def exSecondary (a : Address) (nm : String) (hs : List Address) : ServerDescription :=
  { freshUnknown a with
      stype := ServerType.RSSecondary
      set_name := some nm
      hosts := hs }

/-- A hand-built Topology Description (multi-seed configuration). -/
def exTopology (ty : TopologyType) (nm : Option String) (sv eid : Option Nat)
    (srv : List (Address × ServerDescription)) : TopologyDescription :=
  { ttype := ty
    set_name := nm
    max_set_version := sv
    max_election_id := eid
    single_seed := false
    servers := srv }

/- ===================== Part 2: the query cursor ===================== -/

/-- Documents are opaque to the cursor logic; they are modelled by a
countable carrier. -/
abbrev Doc := Nat

/-- The error variants of `error.rs` the cursor paths can produce. -/
inductive MongoError where
  | ioError (s : String)
  | operationError (s : String)
  | responseError (s : String)
  | cursorNotFoundError
  | defaultError (s : String)
  deriving DecidableEq, Repr

/-- One scripted server reply to a `get_more` request: either a batch of
documents or a failure of the underlying stream. -/
inductive FetchResult where
  | batch (docs : List Doc)
  | failure (e : MongoError)
  deriving DecidableEq, Repr

/-- The cursor of `src/cursor.rs`.  `stream` models the network: the
sequence of replies the server will give to successive `get_more`
requests. -/
structure Cursor where
  batch_size : Int
  cursor_id : Int
  limit : Int
  count : Int
  buffer : List Doc
  stream : List FetchResult
  deriving DecidableEq, Repr

/-- Translation of `Cursor::get_from_stream` (cursor.rs:198-209): issue a
`get_more`, read one reply, and extend the buffer with its documents.  The
returned cursor id is discarded, as in the source (cursor.rs:206). -/
def Cursor.get_from_stream (c : Cursor) : Except MongoError Cursor :=
  match c.stream with
  | [] => Except.error (MongoError.ioError "connection closed")
  | FetchResult.failure e :: _ => Except.error e
  | FetchResult.batch docs :: rest =>
      Except.ok { c with buffer := c.buffer ++ docs, stream := rest }

/-- Translation of `Cursor::has_next` (cursor.rs:251-260). -/
def Cursor.has_next (c : Cursor) : Except MongoError (Bool × Cursor) :=
  if 0 < c.limit ∧ c.limit ≤ c.count then Except.ok (false, c)
  else
    if c.buffer.isEmpty ∧ c.limit ≠ 1 ∧ c.cursor_id ≠ 0 then
      match c.get_from_stream with
      | Except.error e => Except.error e
      | Except.ok c' => Except.ok (!c'.buffer.isEmpty, c')
    else Except.ok (!c.buffer.isEmpty, c)

/-- Translation of `Iterator::next` for `Cursor` (cursor.rs:273-285): the
returned cursor is the state left behind by the call (`&mut self`). -/
def Cursor.next (c : Cursor) : Option (Except MongoError Doc) × Cursor :=
  match c.has_next with
  | Except.error e => (some (Except.error e), c)
  | Except.ok (true, c') =>
      let c2 := { c' with count := c'.count + 1 }
      match c2.buffer with
      | [] => (none, c2)
      | d :: rest => (some (Except.ok d), { c2 with buffer := rest })
  | Except.ok (false, c') => (none, c')

/-- Helper for `Cursor::next_n`: the loop `for _ in 0..n` (cursor.rs:223). -/
def Cursor.next_n_aux : Cursor → Nat → Except MongoError (List Doc) × Cursor
  | c, 0 => (Except.ok [], c)
  | c, n + 1 =>
      match c.next with
      | (some (Except.ok d), c') =>
          match Cursor.next_n_aux c' n with
          | (Except.ok ds, c'') => (Except.ok (d :: ds), c'')
          | (Except.error e, c'') => (Except.error e, c'')
      | (some (Except.error e), c') => (Except.error e, c')
      | (none, c') => (Except.ok [], c')

/-- Translation of `Cursor::next_n` (cursor.rs:220-234). -/
def Cursor.next_n (c : Cursor) (n : Int) : Except MongoError (List Doc) × Cursor :=
  Cursor.next_n_aux c n.toNat

/-- Translation of `Cursor::next_batch` (cursor.rs:241-244). -/
def Cursor.next_batch (c : Cursor) : Except MongoError (List Doc) × Cursor :=
  c.next_n c.batch_size

/-- Iterate `next` a fixed number of times, collecting every document
yielded (errors and exhausted steps yield nothing). -/
def runNexts : Cursor → Nat → List Doc × Cursor
  | c, 0 => ([], c)
  | c, k + 1 =>
      match c.next with
      | (some (Except.ok d), c') =>
          let r := runNexts c' k
          (d :: r.1, r.2)
      | (_, c') => runNexts c' k

/-- Iterate `next` exactly `k` times expecting a document each time;
`none` if any step fails to yield one. -/
def collectOk : Cursor → Nat → Option (List Doc × Cursor)
  | c, 0 => some ([], c)
  | c, k + 1 =>
      match c.next with
      | (some (Except.ok d), c') =>
          match collectOk c' k with
          | some (ds, c'') => some (d :: ds, c'')
          | none => none
      | (_, _) => none

/- ===================== Helper lemmas: the servers map ===================== -/

theorem lookupSrv_setSrv_self (l : List (Address × ServerDescription)) (a : Address)
    (d : ServerDescription) : lookupSrv (setSrv l a d) a = some d := by
  induction l with
  | nil => simp [setSrv, lookupSrv]
  | cons p rest ih =>
      by_cases h : p.1 = a
      · simp [setSrv, lookupSrv, h]
      · simp [setSrv, lookupSrv, h, ih]

theorem lookupSrv_setSrv_ne (l : List (Address × ServerDescription)) (a b : Address)
    (d : ServerDescription) (h : b ≠ a) : lookupSrv (setSrv l a d) b = lookupSrv l b := by
  induction l with
  | nil => simp [setSrv, lookupSrv, Ne.symm h]
  | cons p rest ih =>
      by_cases hp : p.1 = a
      · subst hp
        simp [setSrv, lookupSrv, Ne.symm h]
      · simp [setSrv, lookupSrv, hp, ih]

theorem hasSrv_setSrv_self (l : List (Address × ServerDescription)) (a : Address)
    (d : ServerDescription) : hasSrv (setSrv l a d) a = true := by
  simp [hasSrv, lookupSrv_setSrv_self]

theorem hasSrv_setSrv_ne (l : List (Address × ServerDescription)) (a b : Address)
    (d : ServerDescription) (h : b ≠ a) : hasSrv (setSrv l a d) b = hasSrv l b := by
  simp [hasSrv, lookupSrv_setSrv_ne l a b d h]

theorem srvAddresses_setSrv_of_has (l : List (Address × ServerDescription)) (a : Address)
    (d : ServerDescription) (h : hasSrv l a = true) :
    srvAddresses (setSrv l a d) = srvAddresses l := by
  induction l with
  | nil => simp [hasSrv, lookupSrv] at h
  | cons p rest ih =>
      by_cases hp : p.1 = a
      · simp [setSrv, srvAddresses, hp]
      · have h' : hasSrv rest a = true := by
          simpa [hasSrv, lookupSrv, hp] using h
        simp [setSrv, srvAddresses, hp, ih h']

theorem length_setSrv_of_has (l : List (Address × ServerDescription)) (a : Address)
    (d : ServerDescription) (h : hasSrv l a = true) : (setSrv l a d).length = l.length := by
  induction l with
  | nil => simp [hasSrv, lookupSrv] at h
  | cons p rest ih =>
      by_cases hp : p.1 = a
      · simp [setSrv, hp]
      · have h' : hasSrv rest a = true := by
          simpa [hasSrv, lookupSrv, hp] using h
        simp [setSrv, hp, ih h']

theorem mem_srvAddresses_iff_hasSrv (l : List (Address × ServerDescription)) (a : Address) :
    a ∈ srvAddresses l ↔ hasSrv l a = true := by
  induction l with
  | nil => simp [srvAddresses, hasSrv, lookupSrv]
  | cons p rest ih =>
      by_cases hp : p.1 = a
      · simp [srvAddresses, hasSrv, lookupSrv, hp]
      · simp [srvAddresses, hasSrv, lookupSrv, hp, Ne.symm hp, ih]

theorem mem_srvAddresses_setSrv (l : List (Address × ServerDescription)) (a b : Address)
    (d : ServerDescription) :
    b ∈ srvAddresses (setSrv l a d) ↔ b ∈ srvAddresses l ∨ b = a := by
  induction l with
  | nil => simp [setSrv, srvAddresses]
  | cons p rest ih =>
      by_cases hp : p.1 = a
      · subst hp
        simp [setSrv, srvAddresses]
        tauto
      · simp [setSrv, srvAddresses, hp, ih]
        tauto

theorem nodup_setSrv (l : List (Address × ServerDescription)) (a : Address)
    (d : ServerDescription) (h : (srvAddresses l).Nodup) :
    (srvAddresses (setSrv l a d)).Nodup := by
  induction l with
  | nil => simp [setSrv, srvAddresses]
  | cons p rest ih =>
      simp only [srvAddresses, List.nodup_cons] at h
      by_cases hp : p.1 = a
      · subst hp
        simp only [setSrv, if_pos rfl, srvAddresses, List.nodup_cons]
        exact h
      · simp only [setSrv, if_neg hp, srvAddresses, List.nodup_cons]
        refine ⟨?_, ih h.2⟩
        intro hmem
        rcases (mem_srvAddresses_setSrv rest a p.1 d).mp hmem with hin | heq
        · exact h.1 hin
        · exact hp heq

theorem primCount_cons (p : Address × ServerDescription)
    (l : List (Address × ServerDescription)) :
    primCount (p :: l) =
      (if p.2.stype = ServerType.RSPrimary then 1 else 0) + primCount l := by
  by_cases h : p.2.stype = ServerType.RSPrimary
  · simp [primCount, List.countP_cons, h, Nat.add_comm]
  · simp [primCount, List.countP_cons, h]

theorem primCount_le_length (l : List (Address × ServerDescription)) :
    primCount l ≤ l.length := by
  simpa [primCount] using List.countP_le_length (l := l)
    (p := fun p => decide (p.2.stype = ServerType.RSPrimary))

theorem primCount_setSrv_le (l : List (Address × ServerDescription)) (a : Address)
    (d : ServerDescription) (hd : d.stype ≠ ServerType.RSPrimary) :
    primCount (setSrv l a d) ≤ primCount l := by
  induction l with
  | nil => simp [setSrv, primCount, List.countP_cons, hd]
  | cons p rest ih =>
      by_cases hp : p.1 = a
      · simp only [setSrv, if_pos hp]
        rw [primCount_cons, primCount_cons]
        simp only [hd, if_false]
        omega
      · simp only [setSrv, if_neg hp]
        rw [primCount_cons, primCount_cons]
        omega

theorem lookupSrv_removeSrv_self (l : List (Address × ServerDescription)) (a : Address) :
    lookupSrv (removeSrv l a) a = none := by
  induction l with
  | nil => simp [removeSrv, lookupSrv]
  | cons p rest ih =>
      by_cases hp : p.1 = a
      · simp [removeSrv, hp, ih]
      · simp [removeSrv, lookupSrv, hp, ih]

theorem lookupSrv_removeSrv_ne (l : List (Address × ServerDescription)) (a b : Address)
    (h : b ≠ a) : lookupSrv (removeSrv l a) b = lookupSrv l b := by
  induction l with
  | nil => simp [removeSrv]
  | cons p rest ih =>
      by_cases hp : p.1 = a
      · subst hp
        simp [removeSrv, lookupSrv, Ne.symm h, ih]
      · simp [removeSrv, lookupSrv, hp, ih]

theorem hasSrv_removeSrv_self (l : List (Address × ServerDescription)) (a : Address) :
    hasSrv (removeSrv l a) a = false := by
  simp [hasSrv, lookupSrv_removeSrv_self]

theorem hasSrv_removeSrv_ne (l : List (Address × ServerDescription)) (a b : Address)
    (h : b ≠ a) : hasSrv (removeSrv l a) b = hasSrv l b := by
  simp [hasSrv, lookupSrv_removeSrv_ne l a b h]

theorem primCount_removeSrv_le (l : List (Address × ServerDescription)) (a : Address) :
    primCount (removeSrv l a) ≤ primCount l := by
  induction l with
  | nil => simp [removeSrv]
  | cons p rest ih =>
      by_cases hp : p.1 = a
      · simp only [removeSrv, if_pos hp]
        rw [primCount_cons]
        omega
      · simp only [removeSrv, if_neg hp]
        rw [primCount_cons, primCount_cons]
        omega

theorem mem_srvAddresses_removeSrv (l : List (Address × ServerDescription)) (a b : Address) :
    b ∈ srvAddresses (removeSrv l a) ↔ b ∈ srvAddresses l ∧ b ≠ a := by
  induction l with
  | nil => simp [removeSrv, srvAddresses]
  | cons p rest ih =>
      by_cases hp : p.1 = a
      · simp only [removeSrv, if_pos hp, srvAddresses, List.mem_cons, ih]
        subst hp
        constructor
        · rintro ⟨hm, hne⟩
          exact ⟨Or.inr hm, hne⟩
        · rintro ⟨hm | hm, hne⟩
          · exact absurd hm hne
          · exact ⟨hm, hne⟩
      · simp only [removeSrv, if_neg hp, srvAddresses, List.mem_cons, ih]
        constructor
        · rintro (rfl | ⟨hm, hne⟩)
          · exact ⟨Or.inl rfl, hp⟩
          · exact ⟨Or.inr hm, hne⟩
        · rintro ⟨hm | hm, hne⟩
          · exact Or.inl hm
          · exact Or.inr ⟨hm, hne⟩

theorem nodup_removeSrv (l : List (Address × ServerDescription)) (a : Address)
    (h : (srvAddresses l).Nodup) : (srvAddresses (removeSrv l a)).Nodup := by
  induction l with
  | nil => simp [removeSrv, srvAddresses]
  | cons p rest ih =>
      simp only [srvAddresses, List.nodup_cons] at h
      by_cases hp : p.1 = a
      · simp only [removeSrv, if_pos hp]
        exact ih h.2
      · simp only [removeSrv, if_neg hp, srvAddresses, List.nodup_cons]
        refine ⟨?_, ih h.2⟩
        intro hmem
        exact h.1 ((mem_srvAddresses_removeSrv rest a p.1).mp hmem).1

theorem primCount_append (l l' : List (Address × ServerDescription)) :
    primCount (l ++ l') = primCount l + primCount l' := by
  simp [primCount, List.countP_append]

theorem srvAddresses_append (l l' : List (Address × ServerDescription)) :
    srvAddresses (l ++ l') = srvAddresses l ++ srvAddresses l' := by
  induction l with
  | nil => simp [srvAddresses]
  | cons p rest ih => simp [srvAddresses, ih]

theorem lookupSrv_append_left (l l' : List (Address × ServerDescription)) (a : Address)
    (h : hasSrv l a = true) : lookupSrv (l ++ l') a = lookupSrv l a := by
  induction l with
  | nil => simp [hasSrv, lookupSrv] at h
  | cons p rest ih =>
      by_cases hp : p.1 = a
      · simp [lookupSrv, hp]
      · have h' : hasSrv rest a = true := by
          simpa [hasSrv, lookupSrv, hp] using h
        simp [lookupSrv, hp, ih h']

theorem lookupSrv_append_right (l l' : List (Address × ServerDescription)) (a : Address)
    (h : hasSrv l a = false) : lookupSrv (l ++ l') a = lookupSrv l' a := by
  induction l with
  | nil => simp
  | cons p rest ih =>
      by_cases hp : p.1 = a
      · simp [hasSrv, lookupSrv, hp] at h
      · have h' : hasSrv rest a = false := by
          simpa [hasSrv, lookupSrv, hp] using h
        simp [lookupSrv, hp, ih h']

theorem hasSrv_append (l l' : List (Address × ServerDescription)) (a : Address) :
    hasSrv (l ++ l') a = (hasSrv l a || hasSrv l' a) := by
  induction l with
  | nil => simp [hasSrv, lookupSrv]
  | cons p rest ih =>
      by_cases hp : p.1 = a
      · simp [hasSrv, lookupSrv, hp]
      · simp only [List.cons_append]
        simp [hasSrv, lookupSrv, hp] at ih ⊢
        exact ih

theorem setSrv_append_left (l l' : List (Address × ServerDescription)) (a : Address)
    (d : ServerDescription) (h : hasSrv l a = true) :
    setSrv (l ++ l') a d = setSrv l a d ++ l' := by
  induction l with
  | nil => simp [hasSrv, lookupSrv] at h
  | cons p rest ih =>
      by_cases hp : p.1 = a
      · simp [setSrv, hp]
      · have h' : hasSrv rest a = true := by
          simpa [hasSrv, lookupSrv, hp] using h
        simp [setSrv, hp, ih h']

theorem setSrv_setSrv (l : List (Address × ServerDescription)) (a : Address)
    (d : ServerDescription) : setSrv (setSrv l a d) a d = setSrv l a d := by
  induction l with
  | nil => simp [setSrv]
  | cons p rest ih =>
      by_cases hp : p.1 = a
      · simp [setSrv, hp]
      · simp [setSrv, hp, ih]

theorem setSrv_eq_of_lookup (l : List (Address × ServerDescription)) (a : Address)
    (d : ServerDescription) (h : lookupSrv l a = some d) : setSrv l a d = l := by
  induction l with
  | nil => simp [lookupSrv] at h
  | cons p rest ih =>
      obtain ⟨pa, pd⟩ := p
      by_cases hp : pa = a
      · subst hp
        simp [lookupSrv] at h
        simp [setSrv, h]
      · simp [lookupSrv, hp] at h
        simp [setSrv, hp, ih h]

theorem lookupSrv_mapKeys (keep : List Address) (f : Address → ServerDescription) (x : Address) :
    lookupSrv (keep.map fun a => (a, f a)) x = if x ∈ keep then some (f x) else none := by
  induction keep with
  | nil => simp [lookupSrv]
  | cons k ks ih =>
      by_cases hk : k = x
      · subst hk
        simp [lookupSrv]
      · simp [lookupSrv, hk, ih, Ne.symm hk]

theorem srvAddresses_mapKeys (keep : List Address) (f : Address → ServerDescription) :
    srvAddresses (keep.map fun a => (a, f a)) = keep := by
  induction keep with
  | nil => simp [srvAddresses]
  | cons k ks ih => simp [srvAddresses, ih]

theorem primCount_mapKeys (keep : List Address) (f : Address → ServerDescription) :
    primCount (keep.map fun a => (a, f a)) =
      keep.countP (fun a => decide ((f a).stype = ServerType.RSPrimary)) := by
  induction keep with
  | nil => simp [primCount]
  | cons k ks ih =>
      rw [List.map_cons, primCount_cons, List.countP_cons]
      by_cases h : (f k).stype = ServerType.RSPrimary
      · simp [h, ih, Nat.add_comm]
      · simp [h, ih]

theorem countP_le_one_of_unique (l : List Address) (p : Address → Bool) (a : Address)
    (hnd : l.Nodup) (hp : ∀ x ∈ l, p x = true → x = a) : l.countP p ≤ 1 := by
  induction l with
  | nil => simp
  | cons x xs ih =>
      rcases List.nodup_cons.mp hnd with ⟨hx, hxs⟩
      rw [List.countP_cons]
      by_cases hpx : p x = true
      · have hxa : x = a := hp x (List.mem_cons_self x xs) hpx
        have hzero : xs.countP p = 0 := by
          rw [List.countP_eq_zero]
          intro y hy hpy
          have hya : y = a := hp y (List.mem_cons_of_mem x hy) hpy
          rw [hya, ← hxa] at hy
          exact absurd hy hx
        simp [hpx, hzero]
      · have : p x = false := by simpa using hpx
        simp [this]
        exact ih hxs (fun y hy hpy => hp y (List.mem_cons_of_mem x hy) hpy)

theorem anyPrimary_iff_primCount_pos (l : List (Address × ServerDescription)) :
    anyPrimary l = true ↔ 0 < primCount l := by
  simp [anyPrimary, primCount, List.any_eq_true, List.countP_pos_iff]

theorem checkIfHasPrimary_cases (l : List (Address × ServerDescription)) :
    checkIfHasPrimary l = TopologyType.ReplicaSetNoPrimary ∨
      checkIfHasPrimary l = TopologyType.ReplicaSetWithPrimary := by
  unfold checkIfHasPrimary
  split
  · exact Or.inr rfl
  · exact Or.inl rfl

theorem checkIfHasPrimary_eq_with_iff (l : List (Address × ServerDescription)) :
    checkIfHasPrimary l = TopologyType.ReplicaSetWithPrimary ↔ anyPrimary l = true := by
  unfold checkIfHasPrimary
  split
  · simp [*]
  · simp only [iff_false_intro (by assumption : ¬ anyPrimary l = true)]
    simp

theorem recordName_ttype (t : TopologyDescription) (sd : ServerDescription) :
    (recordName t sd).ttype = t.ttype := by
  unfold recordName
  cases t.set_name <;> simp

theorem recordName_servers (t : TopologyDescription) (sd : ServerDescription) :
    (recordName t sd).servers = t.servers := by
  unfold recordName
  cases t.set_name <;> simp

theorem recordName_max_sv (t : TopologyDescription) (sd : ServerDescription) :
    (recordName t sd).max_set_version = t.max_set_version := by
  unfold recordName
  cases t.set_name <;> simp

theorem recordName_max_eid (t : TopologyDescription) (sd : ServerDescription) :
    (recordName t sd).max_election_id = t.max_election_id := by
  unfold recordName
  cases t.set_name <;> simp

theorem recordName_single_seed (t : TopologyDescription) (sd : ServerDescription) :
    (recordName t sd).single_seed = t.single_seed := by
  unfold recordName
  cases t.set_name <;> simp

theorem recordName_name_of_some (t : TopologyDescription) (sd : ServerDescription)
    (s : String) (h : t.set_name = some s) : (recordName t sd).set_name = some s := by
  unfold recordName
  rw [h]
  exact h

theorem recordName_name_of_none (t : TopologyDescription) (sd : ServerDescription)
    (h : t.set_name = none) : (recordName t sd).set_name = sd.set_name := by
  unfold recordName
  rw [h]

theorem nameMismatch_congr (t t2 : TopologyDescription) (sd : ServerDescription)
    (h : t.set_name = t2.set_name) : nameMismatch t sd = nameMismatch t2 sd := by
  unfold nameMismatch
  rw [h]

theorem nameMismatch_recordName (t : TopologyDescription) (sd : ServerDescription)
    (h : nameMismatch t sd = false) : nameMismatch (recordName t sd) sd = false := by
  cases hs : t.set_name with
  | none =>
      have hn : (recordName t sd).set_name = sd.set_name := recordName_name_of_none t sd hs
      unfold nameMismatch
      rw [hn]
      cases h2 : sd.set_name <;> simp [h2]
  | some s =>
      have hn : (recordName t sd).set_name = some s := recordName_name_of_some t sd s hs
      unfold nameMismatch at h ⊢
      rw [hn]
      rw [hs] at h
      exact h

/- ===================== Helper lemmas: the update branches ===================== -/

theorem primaryRebuildEntry_primary_imp (t : TopologyDescription) (addr : Address)
    (sd : ServerDescription) (a : Address)
    (h : (primaryRebuildEntry t addr sd a).stype = ServerType.RSPrimary) : a = addr := by
  by_cases ha : a = addr
  · exact ha
  · exfalso
    unfold primaryRebuildEntry at h
    rw [if_neg ha] at h
    cases hl : lookupSrv t.servers a with
    | none =>
        rw [hl] at h
        simp [freshUnknown] at h
    | some d =>
        rw [hl] at h
        by_cases hd : d.stype = ServerType.RSPrimary <;> simp [hd, freshUnknown] at h

theorem nodup_keepList (addr : Address) (sd : ServerDescription) :
    (keepList addr sd).Nodup :=
  List.nodup_dedup _

theorem srvAddresses_primaryRebuild (t : TopologyDescription) (addr : Address)
    (sd : ServerDescription) :
    srvAddresses (primaryRebuild t addr sd) = keepList addr sd :=
  srvAddresses_mapKeys _ _

theorem lookupSrv_primaryRebuild (t : TopologyDescription) (addr : Address)
    (sd : ServerDescription) (x : Address) :
    lookupSrv (primaryRebuild t addr sd) x =
      if x ∈ keepList addr sd then some (primaryRebuildEntry t addr sd x) else none :=
  lookupSrv_mapKeys _ _ _

theorem primCount_primaryRebuild_le_one (t : TopologyDescription) (addr : Address)
    (sd : ServerDescription) : primCount (primaryRebuild t addr sd) ≤ 1 := by
  unfold primaryRebuild
  rw [primCount_mapKeys]
  refine countP_le_one_of_unique _ _ addr (nodup_keepList addr sd) ?_
  intro x _ hx
  exact primaryRebuildEntry_primary_imp t addr sd x (by simpa using hx)

theorem primCount_freshMap (l : List Address) :
    primCount (l.map (fun a => (a, freshUnknown a))) = 0 := by
  rw [primCount_mapKeys]
  rw [List.countP_eq_zero]
  intro a _
  simp [freshUnknown]

theorem anyPrimary_eq_false_iff (l : List (Address × ServerDescription)) :
    anyPrimary l = false ↔ primCount l = 0 := by
  have h := anyPrimary_iff_primCount_pos l
  constructor
  · intro hf
    by_contra hc
    have : 0 < primCount l := Nat.pos_of_ne_zero hc
    have := h.mpr this
    rw [hf] at this
    cases this
  · intro hz
    by_contra hc
    have : anyPrimary l = true := by
      cases hb : anyPrimary l
      · exact absurd hb hc
      · rfl
    have := h.mp this
    omega

theorem srvAddresses_memberRebuild (t : TopologyDescription) (addr : Address)
    (sd : ServerDescription) :
    srvAddresses (memberRebuild t addr sd) =
      srvAddresses (setSrv t.servers addr sd) ++ memberAdds t addr sd := by
  unfold memberRebuild
  rw [srvAddresses_append, srvAddresses_mapKeys]

theorem nodup_memberAdds (t : TopologyDescription) (addr : Address) (sd : ServerDescription) :
    (memberAdds t addr sd).Nodup :=
  List.Nodup.filter _ (List.nodup_dedup _)

theorem nodup_memberRebuild (t : TopologyDescription) (addr : Address) (sd : ServerDescription)
    (h : (srvAddresses t.servers).Nodup) :
    (srvAddresses (memberRebuild t addr sd)).Nodup := by
  rw [srvAddresses_memberRebuild]
  refine List.Nodup.append (nodup_setSrv _ _ _ h) (nodup_memberAdds t addr sd) ?_
  intro a ha hb
  have hmem : hasSrv (setSrv t.servers addr sd) a = true :=
    (mem_srvAddresses_iff_hasSrv _ _).mp ha
  have : ¬ hasSrv (setSrv t.servers addr sd) a = true := by
    unfold memberAdds at hb
    rcases List.mem_filter.mp hb with ⟨_, hf⟩
    simp at hf
    simp [hf]
  exact this hmem

theorem primCount_memberRebuild_le (t : TopologyDescription) (addr : Address)
    (sd : ServerDescription) (hsd : sd.stype ≠ ServerType.RSPrimary)
    (h2 : primCount t.servers ≤ 1) : primCount (memberRebuild t addr sd) ≤ 1 := by
  unfold memberRebuild
  rw [primCount_append, primCount_freshMap]
  have := primCount_setSrv_le t.servers addr sd hsd
  omega

/-- Assemble the topology invariant for an update result whose topology type
was recomputed by `checkIfHasPrimary`. -/
theorem topologyInv_of_rs (t' : TopologyDescription)
    (hn : (srvAddresses t'.servers).Nodup) (hc : primCount t'.servers ≤ 1)
    (hty : t'.ttype = checkIfHasPrimary t'.servers) : TopologyInv t' := by
  refine ⟨hn, hc, ?_, ?_, ?_⟩
  · intro hu _
    rw [hty] at hu
    rcases checkIfHasPrimary_cases t'.servers with hc2 | hc2 <;> rw [hc2] at hu <;>
      exact absurd hu (by decide)
  · intro hu
    rw [hty] at hu
    rcases checkIfHasPrimary_cases t'.servers with hc2 | hc2 <;> rw [hc2] at hu <;>
      exact absurd hu (by decide)
  · intro _
    exact hty

theorem dropServer_inv (t : TopologyDescription) (addr : Address)
    (h1 : (srvAddresses t.servers).Nodup) (h2 : primCount t.servers ≤ 1) :
    TopologyInv (dropServer t addr).1 := by
  refine topologyInv_of_rs _ ?_ ?_ rfl
  · exact nodup_removeSrv _ _ h1
  · exact Nat.le_trans (primCount_removeSrv_le _ _) h2

theorem updateRSFromPrimary_inv (t : TopologyDescription) (addr : Address)
    (sd : ServerDescription)
    (h1 : (srvAddresses t.servers).Nodup) (h2 : primCount t.servers ≤ 1) :
    TopologyInv (updateRSFromPrimary t addr sd).1 := by
  unfold updateRSFromPrimary
  by_cases hnm : nameMismatch t sd = true
  · rw [if_pos hnm]
    exact dropServer_inv t addr h1 h2
  · rw [if_neg hnm]
    by_cases hstale : pairLt sd.set_version sd.election_id t.max_set_version t.max_election_id = true
    · rw [if_pos hstale]
      refine topologyInv_of_rs _ ?_ ?_ ?_
      · exact nodup_setSrv _ _ _ h1
      · exact Nat.le_trans (primCount_setSrv_le _ _ _ (by simp [freshUnknown])) h2
      · rfl
    · rw [if_neg hstale]
      refine topologyInv_of_rs _ ?_ ?_ ?_
      · rw [show ({ recordName t sd with
            ttype := checkIfHasPrimary (primaryRebuild t addr sd)
            max_set_version := sd.set_version
            max_election_id := sd.election_id
            servers := primaryRebuild t addr sd } : TopologyDescription).servers =
            primaryRebuild t addr sd from rfl]
        rw [srvAddresses_primaryRebuild]
        exact nodup_keepList addr sd
      · exact primCount_primaryRebuild_le_one t addr sd
      · rfl

theorem updateRSMember_inv (t : TopologyDescription) (addr : Address)
    (sd : ServerDescription) (hsd : sd.stype ≠ ServerType.RSPrimary)
    (h1 : (srvAddresses t.servers).Nodup) (h2 : primCount t.servers ≤ 1) :
    TopologyInv (updateRSMember t addr sd).1 := by
  unfold updateRSMember
  by_cases hnm : nameMismatch t sd = true
  · rw [if_pos hnm]
    exact dropServer_inv t addr h1 h2
  · rw [if_neg hnm]
    refine topologyInv_of_rs _ ?_ ?_ ?_
    · exact nodup_memberRebuild t addr sd h1
    · exact primCount_memberRebuild_le t addr sd hsd h2
    · rfl

/-- The topology invariant is preserved by every single update step. -/
theorem update_inv (t : TopologyDescription) (addr : Address) (sd : ServerDescription)
    (h : TopologyInv t) : TopologyInv (TopologyDescription.update t addr sd).1 := by
  obtain ⟨h1, h2, h3, h4, h5⟩ := h
  by_cases hh : hasSrv t.servers addr = true
  case neg =>
    have hh' : hasSrv t.servers addr = false := by simpa using hh
    simp only [TopologyDescription.update, hh', Bool.false_eq_true, if_false]
    exact ⟨h1, h2, h3, h4, h5⟩
  case pos =>
    by_cases hss2 : t.single_seed = true <;>
    cases htt : t.ttype <;> cases hst : sd.stype <;>
      simp [TopologyDescription.update, hh, htt, hst] <;>
      first
      | exact updateRSFromPrimary_inv t addr sd h1 h2
      | exact updateRSMember_inv t addr sd (by rw [hst]; decide) h1 h2
      | exact dropServer_inv t addr h1 h2
      | exact topologyInv_of_rs _ (nodup_setSrv _ _ _ h1)
          (Nat.le_trans (primCount_setSrv_le _ _ _ (by rw [hst]; decide)) h2) rfl
      | exact ⟨nodup_setSrv _ _ _ h1,
          Nat.le_trans (primCount_setSrv_le _ _ _ (by rw [hst]; decide)) h2,
          fun hu _ => TopologyType.noConfusion hu,
          fun hu => TopologyType.noConfusion hu,
          fun hu => hu.elim (fun x => TopologyType.noConfusion x) (fun x => TopologyType.noConfusion x)⟩
      | exact ⟨nodup_removeSrv _ _ h1,
          Nat.le_trans (primCount_removeSrv_le _ _) h2,
          fun hu _ => TopologyType.noConfusion hu,
          fun hu => TopologyType.noConfusion hu,
          fun hu => hu.elim (fun x => TopologyType.noConfusion x) (fun x => TopologyType.noConfusion x)⟩
      | exact ⟨nodup_setSrv _ _ _ h1,
          Nat.le_trans (primCount_le_length _)
            (Nat.le_trans (Nat.le_of_eq (length_setSrv_of_has t.servers addr sd hh)) (h4 htt)),
          fun hu _ => TopologyType.noConfusion hu,
          fun _ => Nat.le_trans (Nat.le_of_eq (length_setSrv_of_has t.servers addr sd hh))
            (h4 htt),
          fun hu => hu.elim (fun x => TopologyType.noConfusion x) (fun x => TopologyType.noConfusion x)⟩
      | exact ⟨nodup_setSrv _ _ _ h1,
          Nat.le_trans (primCount_setSrv_le _ _ _ (by rw [hst]; decide)) h2,
          fun _ hss => Nat.le_trans (Nat.le_of_eq (length_setSrv_of_has t.servers addr sd hh))
            (h3 htt hss),
          fun hu => TopologyType.noConfusion hu,
          fun hu => hu.elim (fun x => TopologyType.noConfusion x) (fun x => TopologyType.noConfusion x)⟩
      | (rw [if_pos hss2]
         exact ⟨nodup_setSrv _ _ _ h1,
          Nat.le_trans (primCount_le_length _)
            (Nat.le_trans (Nat.le_of_eq (length_setSrv_of_has t.servers addr sd hh))
              (h3 htt hss2)),
          fun hu _ => TopologyType.noConfusion hu,
          fun _ => Nat.le_trans (Nat.le_of_eq (length_setSrv_of_has t.servers addr sd hh))
            (h3 htt hss2),
          fun hu => hu.elim (fun x => TopologyType.noConfusion x) (fun x => TopologyType.noConfusion x)⟩)
      | (rw [if_neg hss2]
         exact ⟨nodup_removeSrv _ _ h1,
          Nat.le_trans (primCount_removeSrv_le _ _) h2,
          fun _ hss => absurd hss hss2,
          fun hu => TopologyType.noConfusion hu,
          fun hu => hu.elim (fun x => TopologyType.noConfusion x) (fun x => TopologyType.noConfusion x)⟩)

/-- The Topology Description a deployment handle starts from satisfies the
structural invariant. -/
theorem initial_inv (seeds : List Address) (rsName : Option String) :
    TopologyInv (initialTopology seeds rsName) := by
  refine ⟨?_, ?_, ?_, ?_, ?_⟩
  · show (srvAddresses ((seeds.dedup).map (fun a => (a, freshUnknown a)))).Nodup
    rw [srvAddresses_mapKeys]
    exact List.nodup_dedup _
  · show primCount ((seeds.dedup).map (fun a => (a, freshUnknown a))) ≤ 1
    rw [primCount_freshMap]
    exact Nat.zero_le 1
  · intro _ hss
    have hlen : seeds.length = 1 := of_decide_eq_true hss
    show ((seeds.dedup).map (fun a => (a, freshUnknown a))).length ≤ 1
    rw [List.length_map]
    exact Nat.le_trans (List.Sublist.length_le (List.dedup_sublist seeds)) (Nat.le_of_eq hlen)
  · intro hu
    cases rsName with
    | none => exact TopologyType.noConfusion hu
    | some s => exact TopologyType.noConfusion hu
  · intro hor
    cases rsName with
    | none => rcases hor with h | h <;> exact TopologyType.noConfusion h
    | some s =>
        have hz : anyPrimary ((seeds.dedup).map (fun a => (a, freshUnknown a))) = false := by
          rw [anyPrimary_eq_false_iff, primCount_freshMap]
        show TopologyType.ReplicaSetNoPrimary = checkIfHasPrimary _
        simp [checkIfHasPrimary, initialTopology, hz]

/-- The topology invariant holds after folding any sequence of heartbeat
results into an invariant-satisfying Topology Description. -/
theorem applyAll_inv (t : TopologyDescription) (updates : List (Address × ServerDescription))
    (h : TopologyInv t) : TopologyInv (applyAll t updates) := by
  induction updates generalizing t with
  | nil => exact h
  | cons u rest ih => exact ih _ (update_inv t u.1 u.2 h)

theorem lookupSrv_mem (l : List (Address × ServerDescription)) (a : Address)
    (d : ServerDescription) (h : lookupSrv l a = some d) : (a, d) ∈ l := by
  induction l with
  | nil => simp [lookupSrv] at h
  | cons p rest ih =>
      obtain ⟨pa, pd⟩ := p
      by_cases hp : pa = a
      · subst hp
        simp [lookupSrv] at h
        subst h
        exact List.mem_cons_self _ _
      · simp [lookupSrv, hp] at h
        exact List.mem_cons_of_mem _ (ih h)

theorem primCount_zero_no_primary (l : List (Address × ServerDescription))
    (h : primCount l = 0) (a : Address) (d : ServerDescription)
    (hd : lookupSrv l a = some d) : d.stype ≠ ServerType.RSPrimary := by
  have hmem := lookupSrv_mem l a d hd
  have := List.countP_eq_zero.mp h _ hmem
  simpa using this

/-- Replacing the (first) entry at an address with a fresh `Unknown`
description removes exactly that entry's contribution to the primary
count. -/
theorem primCount_setSrv_fresh (l : List (Address × ServerDescription)) (a : Address)
    (d : ServerDescription) (hd : lookupSrv l a = some d) :
    primCount (setSrv l a (freshUnknown a)) +
      (if d.stype = ServerType.RSPrimary then 1 else 0) = primCount l := by
  induction l with
  | nil => simp [lookupSrv] at hd
  | cons p rest ih =>
      obtain ⟨pa, pd⟩ := p
      by_cases hp : pa = a
      · subst hp
        simp [lookupSrv] at hd
        subst hd
        have hred : setSrv ((pa, pd) :: rest) pa (freshUnknown pa) =
            (pa, freshUnknown pa) :: rest := by
          simp [setSrv]
        rw [hred, primCount_cons, primCount_cons]
        simp [freshUnknown]
        omega
      · simp [lookupSrv, hp] at hd
        simp only [setSrv, if_neg hp]
        rw [primCount_cons, primCount_cons]
        have := ih hd
        omega

/-- In a replica-set or still-unknown topology, an update carrying an
`RSPrimary` description is processed by `updateRSFromPrimary`. -/
theorem update_eq_rsPrimary (t : TopologyDescription) (addr : Address) (sd : ServerDescription)
    (hh : hasSrv t.servers addr = true)
    (hst : sd.stype = ServerType.RSPrimary)
    (htt : t.ttype = TopologyType.Unknown ∨ t.ttype = TopologyType.ReplicaSetNoPrimary ∨
      t.ttype = TopologyType.ReplicaSetWithPrimary) :
    TopologyDescription.update t addr sd = updateRSFromPrimary t addr sd := by
  rcases htt with h | h | h <;> simp [TopologyDescription.update, hh, h, hst]

/-- An accepted (fresher) primary demotes every other server that was marked
`RSPrimary` to a cleared `Unknown` description. -/
theorem accepted_primary_demotes (t : TopologyDescription) (addr : Address)
    (sd : ServerDescription) (addr' : Address) (d d' : ServerDescription)
    (hst : sd.stype = ServerType.RSPrimary)
    (hnm : nameMismatch t sd = false)
    (hstale : pairLt sd.set_version sd.election_id t.max_set_version t.max_election_id = false)
    (htt : t.ttype = TopologyType.Unknown ∨ t.ttype = TopologyType.ReplicaSetNoPrimary ∨
      t.ttype = TopologyType.ReplicaSetWithPrimary)
    (hh : hasSrv t.servers addr = true)
    (hne : addr' ≠ addr)
    (hd : lookupSrv t.servers addr' = some d)
    (hdp : d.stype = ServerType.RSPrimary)
    (hd' : lookupSrv (TopologyDescription.update t addr sd).1.servers addr' = some d') :
    d'.stype = ServerType.Unknown := by
  rw [update_eq_rsPrimary t addr sd hh hst htt] at hd'
  unfold updateRSFromPrimary at hd'
  simp only [hnm, hstale, Bool.false_eq_true, if_false] at hd'
  rw [lookupSrv_primaryRebuild] at hd'
  by_cases hk : addr' ∈ keepList addr sd
  · rw [if_pos hk] at hd'
    have he : primaryRebuildEntry t addr sd addr' = d' := Option.some.inj hd'
    rw [← he]
    unfold primaryRebuildEntry
    rw [if_neg hne, hd]
    simp [hdp, freshUnknown]
  · rw [if_neg hk] at hd'
    exact Option.noConfusion hd'

/-- The shape of the topology after a stale primary report: the recorded
maximum is untouched and the reporting server's entry is demoted to a
cleared `Unknown` description. -/
theorem stale_primary_update_shape (t : TopologyDescription) (addr : Address)
    (sd : ServerDescription)
    (hst : sd.stype = ServerType.RSPrimary)
    (htt : t.ttype = TopologyType.Unknown ∨ t.ttype = TopologyType.ReplicaSetNoPrimary ∨
      t.ttype = TopologyType.ReplicaSetWithPrimary)
    (hh : hasSrv t.servers addr = true)
    (hnm : nameMismatch t sd = false)
    (hstale : pairLt sd.set_version sd.election_id t.max_set_version t.max_election_id = true) :
    (TopologyDescription.update t addr sd).1.max_set_version = t.max_set_version
    ∧ (TopologyDescription.update t addr sd).1.max_election_id = t.max_election_id
    ∧ lookupSrv (TopologyDescription.update t addr sd).1.servers addr =
        some (freshUnknown addr)
    ∧ (TopologyDescription.update t addr sd).1.ttype =
        checkIfHasPrimary (setSrv t.servers addr (freshUnknown addr)) := by
  rw [update_eq_rsPrimary t addr sd hh hst htt]
  have hbranch : updateRSFromPrimary t addr sd =
      ({ recordName t sd with
          ttype := checkIfHasPrimary (setSrv t.servers addr (freshUnknown addr))
          servers := setSrv t.servers addr (freshUnknown addr) }, [], []) := by
    unfold updateRSFromPrimary
    rw [if_neg (by simp [hnm]), if_pos hstale]
  rw [hbranch]
  refine ⟨recordName_max_sv t sd, recordName_max_eid t sd, ?_, rfl⟩
  exact lookupSrv_setSrv_self t.servers addr (freshUnknown addr)

/- ===================== Claim theorems: Server Description ===================== -/

/-- C5: every Server Description of type `Unknown` the system produces — by
recording a failed heartbeat (`set_err`), by parsing a reply that is not
ok (`ServerDescription.update`), or as a fresh placeholder
(`freshUnknown`) — has empty `hosts`/`passives`/`arbiters` lists and
carries no `set_version`/`election_id`; these fields are cleared rather
than retained from the previous description of the node. -/
theorem unknown_description_cleared :
    (∀ (d : ServerDescription) (e : String),
      (d.set_err e).stype = ServerType.Unknown
      ∧ (d.set_err e).hosts = [] ∧ (d.set_err e).passives = [] ∧ (d.set_err e).arbiters = []
      ∧ (d.set_err e).set_version = none ∧ (d.set_err e).election_id = none
      ∧ (d.set_err e).set_name = none
      ∧ (d.set_err e).last_error = some e)
    ∧ (∀ (d : ServerDescription) (r : IsMasterResult),
      (d.update r).stype = ServerType.Unknown →
      (d.update r).hosts = [] ∧ (d.update r).passives = [] ∧ (d.update r).arbiters = []
      ∧ (d.update r).set_version = none ∧ (d.update r).election_id = none
      ∧ (d.update r).set_name = none)
    ∧ (∀ a : Address,
      (freshUnknown a).stype = ServerType.Unknown
      ∧ (freshUnknown a).hosts = [] ∧ (freshUnknown a).passives = []
      ∧ (freshUnknown a).arbiters = []
      ∧ (freshUnknown a).set_version = none ∧ (freshUnknown a).election_id = none) := by
  refine ⟨?_, ?_, ?_⟩
  · intro d e
    simp [ServerDescription.set_err, freshUnknown]
  · intro d r h
    unfold ServerDescription.update at h ⊢
    by_cases hu : serverTypeOfReply r = ServerType.Unknown
    · simp [hu, freshUnknown]
    · rw [if_neg hu] at h
      exact absurd h hu
  · intro a
    simp [freshUnknown]

/-- Witness for C5: a reply that is not ok, carrying membership and version
data, still yields a fully cleared `Unknown` description. -/
theorem unknown_description_cleared_witness :
    (((freshUnknown "a").update
      { ok := false
        ismaster := true
        secondary := false
        arbiter_only := false
        is_replica_set := false
        msg := ""
        set_name := some "rs0"
        set_version := some 5
        election_id := some 7
        hosts := ["a", "b"]
        passives := ["c"]
        arbiters := ["d"]
        min_wire_version := 0
        max_wire_version := 3 }).hosts = []
    ∧ ((freshUnknown "z").set_err "timeout").stype = ServerType.Unknown) := by
  refine ⟨?_, ?_⟩
  · exact (unknown_description_cleared.2.1 (freshUnknown "a") _ (by decide)).1
  · exact (unknown_description_cleared.1 (freshUnknown "z") "timeout").1

/-- C6: a heartbeat outcome replaces a Server Description wholesale: the
description produced by `ServerDescription.update` (successful or failed
parse) and by `set_err` is a function of the node's address identity and
the new heartbeat data alone, so no field of the previous description can
survive into (or partially overwrite) the new one. -/
theorem description_replaced_wholesale :
    (∀ (d₁ d₂ : ServerDescription) (r : IsMasterResult), d₁.address = d₂.address →
      d₁.update r = d₂.update r)
    ∧ (∀ (d₁ d₂ : ServerDescription) (e : String), d₁.address = d₂.address →
      d₁.set_err e = d₂.set_err e) := by
  constructor
  · intro d₁ d₂ r h
    simp [ServerDescription.update, h]
  · intro d₁ d₂ e h
    simp [ServerDescription.set_err, h]

/-- Witness for C6: two nodes with the same address but entirely different
previous state produce identical descriptions from the same reply and from
the same failure. -/
theorem description_replaced_wholesale_witness :
    ((freshUnknown "a").update
      { ok := true
        ismaster := true
        secondary := false
        arbiter_only := false
        is_replica_set := false
        msg := ""
        set_name := some "rs0"
        set_version := some 1
        election_id := some 1
        hosts := ["a"]
        passives := []
        arbiters := []
        min_wire_version := 0
        max_wire_version := 3 } =
    ({ freshUnknown "a" with
        stype := ServerType.RSSecondary
        set_name := some "old"
        set_version := some 9
        hosts := ["x", "y"]
        round_trip_time := some 42 }).update
      { ok := true
        ismaster := true
        secondary := false
        arbiter_only := false
        is_replica_set := false
        msg := ""
        set_name := some "rs0"
        set_version := some 1
        election_id := some 1
        hosts := ["a"]
        passives := []
        arbiters := []
        min_wire_version := 0
        max_wire_version := 3 })
    ∧ (freshUnknown "a").set_err "refused" =
      ({ freshUnknown "a" with stype := ServerType.RSPrimary }).set_err "refused" := by
  constructor
  · exact description_replaced_wholesale.1 _ _ _ (by decide)
  · exact description_replaced_wholesale.2 _ _ _ (by decide)

/- ===================== Helper lemmas: the cursor ===================== -/

theorem get_from_stream_ok_shape (c c' : Cursor) (h : c.get_from_stream = Except.ok c') :
    ∃ docs rest, c.stream = FetchResult.batch docs :: rest ∧
      c' = { c with buffer := c.buffer ++ docs, stream := rest } := by
  unfold Cursor.get_from_stream at h
  cases hs : c.stream with
  | nil =>
      rw [hs] at h
      exact absurd h (by simp)
  | cons f rest =>
      rw [hs] at h
      cases f with
      | failure e => exact absurd h (by simp)
      | batch docs => exact ⟨docs, rest, rfl, (Except.ok.inj h).symm⟩

theorem get_from_stream_fields (c c' : Cursor) (h : c.get_from_stream = Except.ok c') :
    c'.limit = c.limit ∧ c'.count = c.count ∧ c'.cursor_id = c.cursor_id := by
  obtain ⟨docs, rest, _, hc⟩ := get_from_stream_ok_shape c c' h
  subst hc
  exact ⟨rfl, rfl, rfl⟩

theorem has_next_ok_fields (c : Cursor) (b : Bool) (c' : Cursor)
    (h : c.has_next = Except.ok (b, c')) :
    c'.limit = c.limit ∧ c'.count = c.count ∧ c'.cursor_id = c.cursor_id
    ∧ (b = true → c'.buffer ≠ [])
    ∧ (b = true → ¬(0 < c.limit ∧ c.limit ≤ c.count)) := by
  unfold Cursor.has_next at h
  by_cases h1 : 0 < c.limit ∧ c.limit ≤ c.count
  · rw [if_pos h1] at h
    have h2 := Except.ok.inj h
    injection h2 with hb hc
    subst hc
    refine ⟨rfl, rfl, rfl, ?_, ?_⟩ <;> intro hbt <;> rw [← hb] at hbt <;> cases hbt
  · rw [if_neg h1] at h
    by_cases h2 : c.buffer.isEmpty ∧ c.limit ≠ 1 ∧ c.cursor_id ≠ 0
    · rw [if_pos h2] at h
      cases hg : c.get_from_stream with
      | error e =>
          rw [hg] at h
          exact absurd h (by simp)
      | ok cg =>
          rw [hg] at h
          have h3 := Except.ok.inj h
          injection h3 with hb hc
          obtain ⟨hl, hcnt, hcid⟩ := get_from_stream_fields c cg hg
          subst hc
          refine ⟨hl, hcnt, hcid, ?_, fun _ => h1⟩
          intro hbt
          rw [← hb] at hbt
          simpa using hbt
    · rw [if_neg h2] at h
      have h3 := Except.ok.inj h
      injection h3 with hb hc
      subst hc
      refine ⟨rfl, rfl, rfl, ?_, fun _ => h1⟩
      intro hbt
      rw [← hb] at hbt
      simpa using hbt

theorem has_next_error_state (c : Cursor) :
    ∀ e, c.has_next = Except.error e →
      c.buffer = [] ∧ ¬(0 < c.limit ∧ c.limit ≤ c.count) := by
  intro e h
  unfold Cursor.has_next at h
  by_cases h1 : 0 < c.limit ∧ c.limit ≤ c.count
  · rw [if_pos h1] at h
    exact absurd h (by simp)
  · rw [if_neg h1] at h
    by_cases h2 : c.buffer.isEmpty ∧ c.limit ≠ 1 ∧ c.cursor_id ≠ 0
    · exact ⟨List.isEmpty_iff.mp h2.1, h1⟩
    · rw [if_neg h2] at h
      exact absurd h (by simp)

/-- The three possible outcomes of one `next` call, with the state change
each one causes. -/
theorem next_shape (c : Cursor) :
    (∃ e, c.next = (some (Except.error e), c))
    ∨ (∃ c', c.next = (none, c') ∧ c'.count = c.count ∧ c'.limit = c.limit
        ∧ c'.cursor_id = c.cursor_id)
    ∨ (∃ d c', c.next = (some (Except.ok d), c') ∧ c'.count = c.count + 1
        ∧ c'.limit = c.limit ∧ c'.cursor_id = c.cursor_id
        ∧ (0 < c.limit → c.count < c.limit)) := by
  unfold Cursor.next
  cases hn : c.has_next with
  | error e => exact Or.inl ⟨e, rfl⟩
  | ok bc =>
      obtain ⟨b, cm⟩ := bc
      obtain ⟨hl, hcnt, hcid, hbuf, hlim⟩ := has_next_ok_fields c b cm hn
      cases b with
      | false => exact Or.inr (Or.inl ⟨cm, rfl, hcnt, hl, hcid⟩)
      | true =>
          cases hb : cm.buffer with
          | nil => exact absurd hb (hbuf rfl)
          | cons d0 rest =>
              refine Or.inr (Or.inr ⟨d0, { cm with count := cm.count + 1, buffer := rest },
                ?_, ?_, ?_, ?_, ?_⟩)
              · simp [hb]
              · simp [hcnt]
              · simp [hl]
              · simp [hcid]
              · intro hL
                by_cases hc : c.count < c.limit
                · exact hc
                · exact absurd ⟨hL, by omega⟩ (hlim rfl)

theorem next_error_state (c : Cursor) (e : MongoError) (c' : Cursor)
    (h : c.next = (some (Except.error e), c')) : c' = c := by
  unfold Cursor.next at h
  cases hn : c.has_next with
  | error e2 =>
      rw [hn] at h
      have h2 := congrArg Prod.snd h
      simp at h2
      exact h2.symm
  | ok bc =>
      obtain ⟨b, cm⟩ := bc
      obtain ⟨_, _, _, hbuf, _⟩ := has_next_ok_fields c b cm hn
      rw [hn] at h
      cases b with
      | false => simp at h
      | true =>
          cases hb : cm.buffer with
          | nil => exact absurd hb (hbuf rfl)
          | cons d0 rest =>
              simp [hb] at h

theorem runNexts_length_le (k : Nat) : ∀ c : Cursor, 0 < c.limit →
    (runNexts c k).1.length ≤ (c.limit - c.count).toNat := by
  induction k with
  | zero =>
      intro c _
      simp [runNexts]
  | succ k ih =>
      intro c hL
      rcases next_shape c with ⟨e, hn⟩ | ⟨c', hn, hcnt, hl, _⟩ |
        ⟨d, c', hn, hcnt, hl, _, hlt⟩
      · rw [show runNexts c (k + 1) = runNexts c k from by simp [runNexts, hn]]
        exact ih c hL
      · rw [show runNexts c (k + 1) = runNexts c' k from by simp [runNexts, hn]]
        have hrec := ih c' (by rw [hl]; exact hL)
        rw [hl, hcnt] at hrec
        exact hrec
      · rw [show runNexts c (k + 1) = (d :: (runNexts c' k).1, (runNexts c' k).2)
          from by simp [runNexts, hn]]
        have hrec := ih c' (by rw [hl]; exact hL)
        rw [hl, hcnt] at hrec
        have hlt' := hlt hL
        simp only [List.length_cons]
        omega

/- ===================== Claim theorems: the cursor ===================== -/

/-- C9: for a cursor with a positive limit, iteration yields at most
`limit` documents in total; `has_next` answers `Ok false` whenever
`count >= limit` and `next` then answers `none`, both leaving the cursor
(including its pending network stream) untouched; and with `limit = 1` or
`cursor_id = 0`, `has_next` never issues a `get_more` request, answering
from the local buffer with the cursor unchanged. -/
theorem cursor_limit_enforced (c : Cursor) (hL : 0 < c.limit) :
    (c.limit ≤ c.count → c.has_next = Except.ok (false, c))
    ∧ (c.limit ≤ c.count → c.next = (none, c))
    ∧ (c.count = 0 → ∀ k : Nat, (runNexts c k).1.length ≤ c.limit.toNat)
    ∧ ((c.limit = 1 ∨ c.cursor_id = 0) →
        c.has_next = Except.ok
          ((if c.limit ≤ c.count then false else !c.buffer.isEmpty), c)) := by
  have ha : c.limit ≤ c.count → c.has_next = Except.ok (false, c) := by
    intro hc
    unfold Cursor.has_next
    rw [if_pos ⟨hL, hc⟩]
  refine ⟨ha, ?_, ?_, ?_⟩
  · intro hc
    have := ha hc
    unfold Cursor.next
    rw [this]
  · intro hz k
    have := runNexts_length_le k c hL
    rw [hz] at this
    simpa using this
  · intro hor
    by_cases hc : c.limit ≤ c.count
    · rw [if_pos hc]
      exact ha hc
    · rw [if_neg hc]
      unfold Cursor.has_next
      rw [if_neg (fun hand => hc hand.2)]
      rw [if_neg ?_]
      rcases hor with h1 | h1
      · intro hand
        exact hand.2.1 h1
      · intro hand
        exact hand.2.2 h1

/-- Witness for C9: a cursor that reached its limit answers `Ok false` and
`none` without touching the stream, and a `limit = 1` cursor with pending
stream data still answers from the local buffer alone.  Cursor fields are
`⟨batch_size, cursor_id, limit, count, buffer, stream⟩`. -/
theorem cursor_limit_enforced_witness :
    (Cursor.has_next ⟨20, 7, 2, 2, [5], [FetchResult.batch [9]]⟩ =
      Except.ok (false, (⟨20, 7, 2, 2, [5], [FetchResult.batch [9]]⟩ : Cursor)))
    ∧ (runNexts ⟨20, 7, 2, 0, [1, 2, 3], [FetchResult.batch [4]]⟩ 5).1.length ≤ 2
    ∧ (Cursor.has_next ⟨20, 7, 1, 0, [], [FetchResult.failure
        MongoError.cursorNotFoundError]⟩ =
      Except.ok (false, (⟨20, 7, 1, 0, [], [FetchResult.failure
        MongoError.cursorNotFoundError]⟩ : Cursor))) := by
  refine ⟨?_, ?_, ?_⟩
  · exact (cursor_limit_enforced _ (by decide)).1 (by decide)
  · have h := (cursor_limit_enforced ⟨20, 7, 2, 0, [1, 2, 3], [FetchResult.batch [4]]⟩
      (by decide)).2.2.1 (by decide) 5
    simpa using h
  · have h := (cursor_limit_enforced ⟨20, 7, 1, 0, [], [FetchResult.failure
      MongoError.cursorNotFoundError]⟩ (by decide)).2.2.2 (Or.inl (by decide))
    simpa using h

theorem next_yield_count (c : Cursor) (d : Doc) (c' : Cursor)
    (h : c.next = (some (Except.ok d), c')) :
    c'.count = c.count + 1 ∧ c'.limit = c.limit := by
  rcases next_shape c with ⟨e, hn⟩ | ⟨c2, hn, _⟩ | ⟨d2, c2, hn, hcnt, hl, _, _⟩
  · rw [h] at hn
    simp at hn
  · rw [h] at hn
    simp at hn
  · rw [h] at hn
    have h1 := congrArg Prod.fst hn
    have h2 := congrArg Prod.snd hn
    simp at h1 h2
    subst h2
    exact ⟨hcnt, hl⟩

theorem next_n_aux_ok_length : ∀ (m : Nat) (c : Cursor) (ds : List Doc) (c' : Cursor),
    Cursor.next_n_aux c m = (Except.ok ds, c') → ds.length ≤ m := by
  intro m
  induction m with
  | zero =>
      intro c ds c' h
      simp [Cursor.next_n_aux] at h
      obtain ⟨rfl, rfl⟩ := h
      simp
  | succ m ih =>
      intro c ds c' h
      rcases hn : c.next with ⟨o, c1⟩
      rcases o with _ | r
      · simp [Cursor.next_n_aux, hn] at h
        obtain ⟨rfl, rfl⟩ := h
        simp
      · rcases r with e | d
        · simp [Cursor.next_n_aux, hn] at h
        · rcases haux : Cursor.next_n_aux c1 m with ⟨r2, c2⟩
          rcases r2 with e2 | ds2
          · simp [Cursor.next_n_aux, hn, haux] at h
          · simp [Cursor.next_n_aux, hn, haux] at h
            obtain ⟨rfl, rfl⟩ := h
            have := ih c1 ds2 c2 haux
            simpa using Nat.succ_le_succ this

theorem collectOk_count : ∀ (k : Nat) (c : Cursor) (ds : List Doc) (c' : Cursor),
    collectOk c k = some (ds, c') → c'.count = c.count + k ∧ ds.length = k := by
  intro k
  induction k with
  | zero =>
      intro c ds c' h
      simp [collectOk] at h
      obtain ⟨rfl, rfl⟩ := h
      simp
  | succ k ih =>
      intro c ds c' h
      rcases hn : c.next with ⟨o, c1⟩
      rcases o with _ | r
      · simp [collectOk, hn] at h
      · rcases r with e | d
        · simp [collectOk, hn] at h
        · rcases hcol : collectOk c1 k with _ | ⟨ds2, c2⟩
          · simp [collectOk, hn, hcol] at h
          · simp [collectOk, hn, hcol] at h
            obtain ⟨rfl, rfl⟩ := h
            obtain ⟨hcnt, hlen⟩ := ih c1 ds2 c2 hcol
            obtain ⟨hc1, _⟩ := next_yield_count c d c1 hn
            constructor
            · rw [hcnt, hc1]
              push_cast
              omega
            · simp [hlen]

theorem next_n_aux_error : ∀ (m : Nat) (c : Cursor) (e : MongoError) (c' : Cursor),
    Cursor.next_n_aux c m = (Except.error e, c') →
    ∃ k ds cmid, k < m ∧ collectOk c k = some (ds, cmid) ∧
      cmid.next = (some (Except.error e), c') := by
  intro m
  induction m with
  | zero =>
      intro c e c' h
      simp [Cursor.next_n_aux] at h
  | succ m ih =>
      intro c e c' h
      rcases hn : c.next with ⟨o, c1⟩
      rcases o with _ | r
      · simp [Cursor.next_n_aux, hn] at h
      · rcases r with e2 | d
        · simp [Cursor.next_n_aux, hn] at h
          obtain ⟨rfl, rfl⟩ := h
          exact ⟨0, [], c, Nat.succ_pos m, rfl, hn⟩
        · rcases haux : Cursor.next_n_aux c1 m with ⟨r2, c2⟩
          rcases r2 with e3 | ds2
          · simp [Cursor.next_n_aux, hn, haux] at h
            obtain ⟨rfl, rfl⟩ := h
            obtain ⟨k, ds, cmid, hk, hcol, hnext⟩ := ih c1 e3 c2 haux
            refine ⟨k + 1, d :: ds, cmid, Nat.succ_lt_succ hk, ?_, hnext⟩
            simp [collectOk, hn, hcol]
          · simp [Cursor.next_n_aux, hn, haux] at h

/-- C10: `Cursor.next_n c n` returns `Ok` with at most `n` documents,
stopping early without error when the cursor is exhausted; if an
underlying fetch fails, it returns `Err` with that error — the documents
already read in the call are not returned, but the cursor's `count` still
reflects them. -/
theorem next_n_spec (c : Cursor) (n : Int) :
    (∀ ds c', c.next_n n = (Except.ok ds, c') → ds.length ≤ n.toNat)
    ∧ (∀ c', c.next = (none, c') → 0 < n → c.next_n n = (Except.ok [], c'))
    ∧ (∀ e c', c.next_n n = (Except.error e, c') →
        ∃ (k : Nat) (ds : List Doc) (cmid : Cursor), (k : Int) < n
          ∧ collectOk c k = some (ds, cmid) ∧ ds.length = k
          ∧ cmid.next = (some (Except.error e), c') ∧ c'.count = c.count + k) := by
  refine ⟨?_, ?_, ?_⟩
  · intro ds c' h
    exact next_n_aux_ok_length n.toNat c ds c' h
  · intro c' hn hpos
    have h1 : n.toNat = (n.toNat - 1) + 1 := by omega
    unfold Cursor.next_n
    rw [h1]
    simp [Cursor.next_n_aux, hn]
  · intro e c' h
    obtain ⟨k, ds, cmid, hk, hcol, hnext⟩ := next_n_aux_error n.toNat c e c' h
    obtain ⟨hcnt, hlen⟩ := collectOk_count k c ds cmid hcol
    have hceq : c' = cmid := next_error_state cmid e c' hnext
    refine ⟨k, ds, cmid, by omega, hcol, hlen, hnext, ?_⟩
    rw [hceq, hcnt]

/-- Witness for C10: an exhausted cursor returns `Ok` with fewer than `n`
documents, and a failing fetch surfaces the error with the documents read
so far reflected only in `count`. -/
theorem next_n_spec_witness :
    ([(1 : Doc), 2].length ≤ (5 : Int).toNat)
    ∧ (∃ (k : Nat) (ds : List Doc) (cmid : Cursor), (k : Int) < 3
        ∧ collectOk ⟨20, 7, 0, 0, [1], [FetchResult.failure
            (MongoError.operationError "boom")]⟩ k = some (ds, cmid)
        ∧ ds.length = k
        ∧ cmid.next = (some (Except.error (MongoError.operationError "boom")),
            (⟨20, 7, 0, 1, [], [FetchResult.failure
              (MongoError.operationError "boom")]⟩ : Cursor))
        ∧ (1 : Int) = 0 + k) := by
  constructor
  · exact (next_n_spec ⟨20, 0, 0, 0, [1, 2], []⟩ 5).1 [1, 2] ⟨20, 0, 0, 2, [], []⟩ rfl
  · exact (next_n_spec ⟨20, 7, 0, 0, [1], [FetchResult.failure
      (MongoError.operationError "boom")]⟩ 3).2.2 (MongoError.operationError "boom")
      ⟨20, 7, 0, 1, [], [FetchResult.failure (MongoError.operationError "boom")]⟩ rfl

/- ===================== Claim theorems: primary uniqueness ===================== -/

/-- C1: along every sequence of heartbeat replies folded into the initial
Topology Description, at most one tracked server is marked `RSPrimary`,
and in topology type `ReplicaSetWithPrimary` exactly one is; moreover an
accepted newer primary demotes any previously recorded primary to
`Unknown`. -/
theorem at_most_one_primary :
    (∀ (seeds : List Address) (rsName : Option String)
        (updates : List (Address × ServerDescription)),
      primCount (applyAll (initialTopology seeds rsName) updates).servers ≤ 1
      ∧ ((applyAll (initialTopology seeds rsName) updates).ttype =
            TopologyType.ReplicaSetWithPrimary →
          primCount (applyAll (initialTopology seeds rsName) updates).servers = 1))
    ∧ (∀ (t : TopologyDescription) (addr : Address) (sd : ServerDescription)
        (addr' : Address) (d d' : ServerDescription),
      sd.stype = ServerType.RSPrimary →
      nameMismatch t sd = false →
      pairLt sd.set_version sd.election_id t.max_set_version t.max_election_id = false →
      (t.ttype = TopologyType.Unknown ∨ t.ttype = TopologyType.ReplicaSetNoPrimary ∨
        t.ttype = TopologyType.ReplicaSetWithPrimary) →
      hasSrv t.servers addr = true →
      addr' ≠ addr →
      lookupSrv t.servers addr' = some d →
      d.stype = ServerType.RSPrimary →
      lookupSrv (TopologyDescription.update t addr sd).1.servers addr' = some d' →
      d'.stype = ServerType.Unknown) := by
  constructor
  · intro seeds rsName updates
    obtain ⟨h1, h2, h3, h4, h5⟩ :=
      applyAll_inv (initialTopology seeds rsName) updates (initial_inv seeds rsName)
    refine ⟨h2, ?_⟩
    intro hw
    have hty := h5 (Or.inr hw)
    rw [hw] at hty
    have hany := (checkIfHasPrimary_eq_with_iff _).mp hty.symm
    have hpos := (anyPrimary_iff_primCount_pos _).mp hany
    omega
  · intro t addr sd addr' d d' hst hnm hstale htt hh hne hd hdp hd'
    exact accepted_primary_demotes t addr sd addr' d d' hst hnm hstale htt hh hne hd hdp hd'

/-- Witness for C1: scenario B of the spec — a three-member set converges to
`ReplicaSetWithPrimary` with exactly one primary — and a newer primary at
"b" demotes the recorded primary at "a" to `Unknown`. -/
theorem at_most_one_primary_witness :
    primCount (applyAll (initialTopology ["a", "b", "c"] none)
      [("a", exPrimary "a" "rs0" 1 1 ["a", "b", "c"]),
       ("b", exSecondary "b" "rs0" ["a", "b", "c"]),
       ("c", exSecondary "c" "rs0" ["a", "b", "c"])]).servers = 1
    ∧ (freshUnknown "a").stype = ServerType.Unknown := by
  constructor
  · exact (at_most_one_primary.1 ["a", "b", "c"] none
      [("a", exPrimary "a" "rs0" 1 1 ["a", "b", "c"]),
       ("b", exSecondary "b" "rs0" ["a", "b", "c"]),
       ("c", exSecondary "c" "rs0" ["a", "b", "c"])]).2 (by decide)
  · exact at_most_one_primary.2
      (exTopology TopologyType.ReplicaSetWithPrimary (some "rs0") (some 1) (some 1)
        [("a", exPrimary "a" "rs0" 1 1 ["a", "b"]),
         ("b", exSecondary "b" "rs0" ["a", "b"])])
      "b" (exPrimary "b" "rs0" 2 1 ["a", "b"]) "a"
      (exPrimary "a" "rs0" 1 1 ["a", "b"]) (freshUnknown "a")
      (by decide) (by decide) (by decide) (by decide) (by decide) (by decide)
      (by decide) (by decide) (by decide)

theorem anyPrimary_eq_of_primCount_eq (l l' : List (Address × ServerDescription))
    (h : primCount l = primCount l') : anyPrimary l = anyPrimary l' := by
  cases hb : anyPrimary l' with
  | false =>
      have hz := (anyPrimary_eq_false_iff l').mp hb
      rw [anyPrimary_eq_false_iff]
      omega
  | true =>
      have hpos := (anyPrimary_iff_primCount_pos l').mp hb
      exact (anyPrimary_iff_primCount_pos l).mpr (by omega)

/-- C3 (amended): in an invariant-satisfying replica-set topology, an
`RSPrimary` report from a tracked address with a matching set name whose
`(set_version, election_id)` pair is strictly below the recorded maximum
is rejected: the recorded maximum is unchanged and the reporting server's
entry is demoted to a cleared `Unknown` description.  The topology type
is unchanged provided the report does not come from the server currently
marked `RSPrimary`; when it does, `ReplicaSetWithPrimary` reverts to
`ReplicaSetNoPrimary`. -/
theorem stale_primary_rejected (t : TopologyDescription) (addr : Address)
    (sd d : ServerDescription)
    (hInv : TopologyInv t)
    (hRS : t.ttype = TopologyType.ReplicaSetNoPrimary ∨
      t.ttype = TopologyType.ReplicaSetWithPrimary)
    (hst : sd.stype = ServerType.RSPrimary)
    (hd : lookupSrv t.servers addr = some d)
    (hnm : nameMismatch t sd = false)
    (hstale : pairLt sd.set_version sd.election_id t.max_set_version t.max_election_id = true) :
    (TopologyDescription.update t addr sd).1.max_set_version = t.max_set_version
    ∧ (TopologyDescription.update t addr sd).1.max_election_id = t.max_election_id
    ∧ lookupSrv (TopologyDescription.update t addr sd).1.servers addr =
        some (freshUnknown addr)
    ∧ (d.stype ≠ ServerType.RSPrimary →
        (TopologyDescription.update t addr sd).1.ttype = t.ttype)
    ∧ (d.stype = ServerType.RSPrimary →
        (TopologyDescription.update t addr sd).1.ttype =
          TopologyType.ReplicaSetNoPrimary) := by
  have hh : hasSrv t.servers addr = true := by
    simp [hasSrv, hd]
  have htt3 : t.ttype = TopologyType.Unknown ∨ t.ttype = TopologyType.ReplicaSetNoPrimary ∨
      t.ttype = TopologyType.ReplicaSetWithPrimary := Or.inr hRS
  obtain ⟨hsv, heid, hlook, hty⟩ := stale_primary_update_shape t addr sd hst htt3 hh hnm hstale
  obtain ⟨h1, h2, h3, h4, h5⟩ := hInv
  have hty5 := h5 hRS
  have hcount := primCount_setSrv_fresh t.servers addr d hd
  refine ⟨hsv, heid, hlook, ?_, ?_⟩
  · intro hdn
    rw [hty]
    have hceq : primCount (setSrv t.servers addr (freshUnknown addr)) = primCount t.servers := by
      simp only [hdn, if_false] at hcount
      omega
    rw [show checkIfHasPrimary (setSrv t.servers addr (freshUnknown addr)) =
        checkIfHasPrimary t.servers from by
      unfold checkIfHasPrimary
      rw [anyPrimary_eq_of_primCount_eq _ _ hceq]]
    exact hty5.symm
  · intro hdp
    rw [hty]
    have hone : 0 < primCount t.servers := by
      refine (anyPrimary_iff_primCount_pos t.servers).mp ?_
      have hmem := lookupSrv_mem t.servers addr d hd
      unfold anyPrimary
      rw [List.any_eq_true]
      exact ⟨(addr, d), hmem, by simp [hdp]⟩
    have hz : primCount (setSrv t.servers addr (freshUnknown addr)) = 0 := by
      simp only [hdp, if_true] at hcount
      omega
    unfold checkIfHasPrimary
    rw [(anyPrimary_eq_false_iff _).mpr hz]
    simp

/-- C3 counterexample: the claim "an update whose incoming server is a
stale `RSPrimary` leaves `topology_type` unchanged" fails when the stale
report comes from the very server currently recorded as primary: the
topology reverts from `ReplicaSetWithPrimary` to `ReplicaSetNoPrimary`
(the maximum and the demotion behave as claimed). -/
theorem stale_primary_changes_ttype_cex :
    pairLt (some 1) (some 1) (some 1) (some 2) = true
    ∧ (exTopology TopologyType.ReplicaSetWithPrimary (some "rs0") (some 1) (some 2)
        [("a", exPrimary "a" "rs0" 1 2 ["a", "b"]),
         ("b", exSecondary "b" "rs0" ["a", "b"])]).ttype =
      TopologyType.ReplicaSetWithPrimary
    ∧ (TopologyDescription.update
        (exTopology TopologyType.ReplicaSetWithPrimary (some "rs0") (some 1) (some 2)
          [("a", exPrimary "a" "rs0" 1 2 ["a", "b"]),
           ("b", exSecondary "b" "rs0" ["a", "b"])])
        "a" (exPrimary "a" "rs0" 1 1 ["a", "b"])).1.ttype =
      TopologyType.ReplicaSetNoPrimary := by
  refine ⟨by decide, by decide, by decide⟩

/-- Witness for the amended C3: a stale report from a non-primary member
"b" leaves the topology type and the recorded maximum unchanged and
demotes "b" to `Unknown`. -/
theorem stale_primary_rejected_witness :
    (TopologyDescription.update
      (exTopology TopologyType.ReplicaSetWithPrimary (some "rs0") (some 2) (some 2)
        [("a", exPrimary "a" "rs0" 2 2 ["a", "b"]),
         ("b", exSecondary "b" "rs0" ["a", "b"])])
      "b" (exPrimary "b" "rs0" 1 1 ["a", "b"])).1.max_set_version = some 2
    ∧ (TopologyDescription.update
      (exTopology TopologyType.ReplicaSetWithPrimary (some "rs0") (some 2) (some 2)
        [("a", exPrimary "a" "rs0" 2 2 ["a", "b"]),
         ("b", exSecondary "b" "rs0" ["a", "b"])])
      "b" (exPrimary "b" "rs0" 1 1 ["a", "b"])).1.ttype =
      TopologyType.ReplicaSetWithPrimary := by
  have h := stale_primary_rejected
    (exTopology TopologyType.ReplicaSetWithPrimary (some "rs0") (some 2) (some 2)
      [("a", exPrimary "a" "rs0" 2 2 ["a", "b"]),
       ("b", exSecondary "b" "rs0" ["a", "b"])])
    "b" (exPrimary "b" "rs0" 1 1 ["a", "b"]) (exSecondary "b" "rs0" ["a", "b"])
    (by decide) (Or.inr (by decide)) (by decide) (by decide) (by decide) (by decide)
  exact ⟨h.1, h.2.2.2.1 (by decide)⟩

theorem updateRSFromPrimary_set_name (t : TopologyDescription) (addr : Address)
    (sd : ServerDescription) (s : String) (h : t.set_name = some s) :
    (updateRSFromPrimary t addr sd).1.set_name = some s := by
  unfold updateRSFromPrimary
  by_cases hnm : nameMismatch t sd = true
  · rw [if_pos hnm]
    exact h
  · rw [if_neg hnm]
    by_cases hs : pairLt sd.set_version sd.election_id t.max_set_version
        t.max_election_id = true
    · rw [if_pos hs]
      exact recordName_name_of_some t sd s h
    · rw [if_neg hs]
      exact recordName_name_of_some t sd s h

theorem updateRSMember_set_name (t : TopologyDescription) (addr : Address)
    (sd : ServerDescription) (s : String) (h : t.set_name = some s) :
    (updateRSMember t addr sd).1.set_name = some s := by
  unfold updateRSMember
  by_cases hnm : nameMismatch t sd = true
  · rw [if_pos hnm]
    exact h
  · rw [if_neg hnm]
    exact recordName_name_of_some t sd s h

/-- C4: once a replica-set name is recorded on a Topology Description, no
later update changes it, whatever the incoming description is; and in a
replica-set topology type, a tracked server whose (heartbeat-produced)
description reports a different set name is dropped from the member map
and queued for removal. -/
theorem set_name_stable :
    (∀ (t : TopologyDescription) (addr : Address) (sd : ServerDescription) (s : String),
      t.set_name = some s →
      (TopologyDescription.update t addr sd).1.set_name = some s)
    ∧ (∀ (t : TopologyDescription) (addr : Address) (sd : ServerDescription) (s s' : String),
      (t.ttype = TopologyType.ReplicaSetNoPrimary ∨
        t.ttype = TopologyType.ReplicaSetWithPrimary) →
      hasSrv t.servers addr = true →
      t.set_name = some s →
      sd.set_name = some s' →
      s' ≠ s →
      WellFormedDesc sd →
      lookupSrv (TopologyDescription.update t addr sd).1.servers addr = none
      ∧ (TopologyDescription.update t addr sd).2.2 = [addr]) := by
  constructor
  · intro t addr sd s hsn
    by_cases hh : hasSrv t.servers addr = true
    · by_cases hss2 : t.single_seed = true <;>
      cases htt : t.ttype <;> cases hst : sd.stype <;>
        simp [TopologyDescription.update, hh, htt, hst] <;>
        first
        | exact updateRSFromPrimary_set_name t addr sd s hsn
        | exact updateRSMember_set_name t addr sd s hsn
        | exact hsn
        | (rw [if_pos hss2]; exact hsn)
        | (rw [if_neg hss2]; exact hsn)
    · have hh' : hasSrv t.servers addr = false := by simpa using hh
      simp [TopologyDescription.update, hh']
      exact hsn
  · intro t addr sd s s' hRS hh hsn hsd hne hwf
    have hmm : nameMismatch t sd = true := by
      unfold nameMismatch
      rw [hsn, hsd]
      simp [hne]
    rcases hRS with htt | htt <;> cases hst : sd.stype <;>
      first
      | exact absurd (hwf (Or.inl hst)) (by rw [hsd]; simp)
      | exact absurd (hwf (Or.inr (Or.inl hst))) (by rw [hsd]; simp)
      | exact absurd (hwf (Or.inr (Or.inr hst))) (by rw [hsd]; simp)
      | (simp [TopologyDescription.update, hh, htt, hst, updateRSFromPrimary,
          updateRSMember, dropServer, hmm]
         exact ⟨lookupSrv_removeSrv_self _ _, rfl⟩)
      | (simp [TopologyDescription.update, hh, htt, hst, updateRSFromPrimary,
          updateRSMember, dropServer, hmm]
         exact lookupSrv_removeSrv_self _ _)

/-- Witness for C4: a member of "rs0" reporting set name "rs1" is removed
from the map and queued for removal, and the recorded name survives an
arbitrary update. -/
theorem set_name_stable_witness :
    (TopologyDescription.update
      (exTopology TopologyType.ReplicaSetWithPrimary (some "rs0") (some 1) (some 1)
        [("a", exPrimary "a" "rs0" 1 1 ["a", "b"]),
         ("b", exSecondary "b" "rs0" ["a", "b"])])
      "b" (exSecondary "b" "rs1" ["a", "b"])).1.set_name = some "rs0"
    ∧ lookupSrv (TopologyDescription.update
      (exTopology TopologyType.ReplicaSetWithPrimary (some "rs0") (some 1) (some 1)
        [("a", exPrimary "a" "rs0" 1 1 ["a", "b"]),
         ("b", exSecondary "b" "rs0" ["a", "b"])])
      "b" (exSecondary "b" "rs1" ["a", "b"])).1.servers "b" = none
    ∧ (TopologyDescription.update
      (exTopology TopologyType.ReplicaSetWithPrimary (some "rs0") (some 1) (some 1)
        [("a", exPrimary "a" "rs0" 1 1 ["a", "b"]),
         ("b", exSecondary "b" "rs0" ["a", "b"])])
      "b" (exSecondary "b" "rs1" ["a", "b"])).2.2 = ["b"] := by
  have h1 := set_name_stable.1
    (exTopology TopologyType.ReplicaSetWithPrimary (some "rs0") (some 1) (some 1)
      [("a", exPrimary "a" "rs0" 1 1 ["a", "b"]),
       ("b", exSecondary "b" "rs0" ["a", "b"])])
    "b" (exSecondary "b" "rs1" ["a", "b"]) "rs0" (by decide)
  have h2 := set_name_stable.2
    (exTopology TopologyType.ReplicaSetWithPrimary (some "rs0") (some 1) (some 1)
      [("a", exPrimary "a" "rs0" 1 1 ["a", "b"]),
       ("b", exSecondary "b" "rs0" ["a", "b"])])
    "b" (exSecondary "b" "rs1" ["a", "b"]) "rs0" "rs1" (Or.inr (by decide)) (by decide)
    (by decide) (by decide) (by decide) (by decide)
  exact ⟨h1, h2.1, h2.2⟩

theorem dropServer_ttype (t : TopologyDescription) (addr : Address) :
    (dropServer t addr).1.ttype = TopologyType.ReplicaSetNoPrimary ∨
      (dropServer t addr).1.ttype = TopologyType.ReplicaSetWithPrimary :=
  checkIfHasPrimary_cases _

theorem updateRSFromPrimary_ttype (t : TopologyDescription) (addr : Address)
    (sd : ServerDescription) :
    (updateRSFromPrimary t addr sd).1.ttype = TopologyType.ReplicaSetNoPrimary ∨
      (updateRSFromPrimary t addr sd).1.ttype = TopologyType.ReplicaSetWithPrimary := by
  unfold updateRSFromPrimary
  by_cases hnm : nameMismatch t sd = true
  · rw [if_pos hnm]
    exact dropServer_ttype t addr
  · rw [if_neg hnm]
    by_cases hs : pairLt sd.set_version sd.election_id t.max_set_version
        t.max_election_id = true
    · rw [if_pos hs]
      exact checkIfHasPrimary_cases _
    · rw [if_neg hs]
      exact checkIfHasPrimary_cases _

theorem updateRSMember_ttype (t : TopologyDescription) (addr : Address)
    (sd : ServerDescription) :
    (updateRSMember t addr sd).1.ttype = TopologyType.ReplicaSetNoPrimary ∨
      (updateRSMember t addr sd).1.ttype = TopologyType.ReplicaSetWithPrimary := by
  unfold updateRSMember
  by_cases hnm : nameMismatch t sd = true
  · rw [if_pos hnm]
    exact dropServer_ttype t addr
  · rw [if_neg hnm]
    exact checkIfHasPrimary_cases _

/-- One update step restricts the topology type transitions: `Sharded` and
`Single` are absorbing, only an `Unknown` topology can still be `Unknown`
afterwards, and the replica-set types move only between each other. -/
theorem update_ttype_step (t : TopologyDescription) (addr : Address) (sd : ServerDescription) :
    (t.ttype = TopologyType.Sharded →
      (TopologyDescription.update t addr sd).1.ttype = TopologyType.Sharded)
    ∧ (t.ttype = TopologyType.Single →
      (TopologyDescription.update t addr sd).1.ttype = TopologyType.Single)
    ∧ ((TopologyDescription.update t addr sd).1.ttype = TopologyType.Unknown →
      t.ttype = TopologyType.Unknown)
    ∧ (t.ttype = TopologyType.ReplicaSetWithPrimary →
      (TopologyDescription.update t addr sd).1.ttype = TopologyType.ReplicaSetWithPrimary ∨
      (TopologyDescription.update t addr sd).1.ttype = TopologyType.ReplicaSetNoPrimary)
    ∧ (t.ttype = TopologyType.ReplicaSetNoPrimary →
      (TopologyDescription.update t addr sd).1.ttype = TopologyType.ReplicaSetNoPrimary ∨
      (TopologyDescription.update t addr sd).1.ttype = TopologyType.ReplicaSetWithPrimary) := by
  by_cases hh : hasSrv t.servers addr = true
  case neg =>
    have hh' : hasSrv t.servers addr = false := by simpa using hh
    simp [TopologyDescription.update, hh']
    exact ⟨fun h => Or.inl h, fun h => Or.inl h⟩
  case pos =>
    by_cases hss2 : t.single_seed = true <;>
    cases htt : t.ttype <;> cases hst : sd.stype <;>
      simp [TopologyDescription.update, hh, htt, hst] <;>
      first
      | (rcases updateRSFromPrimary_ttype t addr sd with hc | hc <;> simp [hc])
      | (rcases updateRSMember_ttype t addr sd with hc | hc <;> simp [hc])
      | (rcases dropServer_ttype t addr with hc | hc <;> simp [hc])
      | (rcases checkIfHasPrimary_cases (setSrv t.servers addr sd) with hc | hc <;> simp [hc])
      | (rw [if_pos hss2]; simp)
      | (rw [if_neg hss2]; simp)
      | simp

/-- C7: along every sequence of updates the topology type never reverts to
`Unknown`, never leaves `Sharded` or `Single`, and the only reversal among
replica-set types is `ReplicaSetWithPrimary → ReplicaSetNoPrimary`
(on primary loss), with the forward direction also possible.  Stated per
step and along arbitrary update sequences. -/
theorem ttype_transitions_one_directional :
    (∀ (t : TopologyDescription) (addr : Address) (sd : ServerDescription),
      (t.ttype = TopologyType.Sharded →
        (TopologyDescription.update t addr sd).1.ttype = TopologyType.Sharded)
      ∧ (t.ttype = TopologyType.Single →
        (TopologyDescription.update t addr sd).1.ttype = TopologyType.Single)
      ∧ ((TopologyDescription.update t addr sd).1.ttype = TopologyType.Unknown →
        t.ttype = TopologyType.Unknown)
      ∧ (t.ttype = TopologyType.ReplicaSetWithPrimary →
        (TopologyDescription.update t addr sd).1.ttype = TopologyType.ReplicaSetWithPrimary ∨
        (TopologyDescription.update t addr sd).1.ttype = TopologyType.ReplicaSetNoPrimary)
      ∧ (t.ttype = TopologyType.ReplicaSetNoPrimary →
        (TopologyDescription.update t addr sd).1.ttype = TopologyType.ReplicaSetNoPrimary ∨
        (TopologyDescription.update t addr sd).1.ttype = TopologyType.ReplicaSetWithPrimary))
    ∧ (∀ (t : TopologyDescription) (updates : List (Address × ServerDescription)),
      (t.ttype = TopologyType.Sharded → (applyAll t updates).ttype = TopologyType.Sharded)
      ∧ (t.ttype = TopologyType.Single → (applyAll t updates).ttype = TopologyType.Single)
      ∧ ((applyAll t updates).ttype = TopologyType.Unknown →
        t.ttype = TopologyType.Unknown)) := by
  refine ⟨update_ttype_step, ?_⟩
  intro t updates
  induction updates generalizing t with
  | nil => exact ⟨fun h => h, fun h => h, fun h => h⟩
  | cons u rest ih =>
      obtain ⟨ih1, ih2, ih3⟩ := ih (TopologyDescription.update t u.1 u.2).1
      obtain ⟨s1, s2, s3, _, _⟩ := update_ttype_step t u.1 u.2
      exact ⟨fun h => ih1 (s1 h), fun h => ih2 (s2 h), fun h => s3 (ih3 h)⟩

/-- Witness for C7: a `Sharded` and a `Single` topology keep their type
under an update, and updating the scenario-B replica set never yields
`Unknown`. -/
theorem ttype_transitions_witness :
    (TopologyDescription.update
      (exTopology TopologyType.Sharded none none none [("a", freshUnknown "a")])
      "a" (exSecondary "a" "rs0" [])).1.ttype = TopologyType.Sharded
    ∧ (applyAll
      (exTopology TopologyType.Single none none none [("a", freshUnknown "a")])
      [("a", exPrimary "a" "rs0" 1 1 ["a"]), ("a", freshUnknown "a")]).ttype =
        TopologyType.Single := by
  constructor
  · exact (ttype_transitions_one_directional.1
      (exTopology TopologyType.Sharded none none none [("a", freshUnknown "a")])
      "a" (exSecondary "a" "rs0" [])).1 (by decide)
  · exact (ttype_transitions_one_directional.2
      (exTopology TopologyType.Single none none none [("a", freshUnknown "a")])
      [("a", exPrimary "a" "rs0" 1 1 ["a"]), ("a", freshUnknown "a")]).2.1 (by decide)

theorem hasSrv_setSrv_eq (l : List (Address × ServerDescription)) (b : Address)
    (d : ServerDescription) (hh : hasSrv l b = true) (a : Address) :
    hasSrv (setSrv l b d) a = hasSrv l a := by
  by_cases hab : a = b
  · subst hab
    rw [hasSrv_setSrv_self, hh]
  · exact hasSrv_setSrv_ne l b a d hab

theorem install_delta (l : List (Address × ServerDescription)) (b : Address)
    (d : ServerDescription) (hh : hasSrv l b = true) (a : Address) :
    (a ∈ ([] : List Address) ↔ a ∈ srvAddresses (setSrv l b d) ∧ a ∉ srvAddresses l)
    ∧ (a ∈ ([] : List Address) ↔ a ∈ srvAddresses l ∧ a ∉ srvAddresses (setSrv l b d)) := by
  rw [srvAddresses_setSrv_of_has l b d hh]
  simp

theorem removal_delta (l : List (Address × ServerDescription)) (b : Address)
    (hh : hasSrv l b = true) (a : Address) :
    (a ∈ ([] : List Address) ↔ a ∈ srvAddresses (removeSrv l b) ∧ a ∉ srvAddresses l)
    ∧ (a ∈ [b] ↔ a ∈ srvAddresses l ∧ a ∉ srvAddresses (removeSrv l b)) := by
  have hmemb : b ∈ srvAddresses l := (mem_srvAddresses_iff_hasSrv l b).mpr hh
  constructor
  · simp only [List.mem_singleton, mem_srvAddresses_removeSrv]
    simp
    intro h1 _
    exact h1
  · simp only [List.mem_singleton, mem_srvAddresses_removeSrv]
    constructor
    · intro ha
      subst ha
      exact ⟨hmemb, fun hand => hand.2 rfl⟩
    · rintro ⟨hal, hnot⟩
      by_contra hab
      exact hnot ⟨hal, hab⟩

/-- Given a tracked address, the update takes one of eight branch shapes. -/
theorem update_branches (t : TopologyDescription) (addr : Address) (sd : ServerDescription)
    (hh : hasSrv t.servers addr = true) :
    TopologyDescription.update t addr sd =
        ({ t with servers := setSrv t.servers addr sd }, [], [])
    ∨ TopologyDescription.update t addr sd =
        ({ t with ttype := TopologyType.Single, servers := setSrv t.servers addr sd }, [], [])
    ∨ TopologyDescription.update t addr sd =
        ({ t with ttype := TopologyType.Sharded, servers := setSrv t.servers addr sd }, [], [])
    ∨ TopologyDescription.update t addr sd =
        ({ t with
            ttype := checkIfHasPrimary (setSrv t.servers addr sd)
            servers := setSrv t.servers addr sd }, [], [])
    ∨ TopologyDescription.update t addr sd =
        ({ t with servers := removeSrv t.servers addr }, [], [addr])
    ∨ TopologyDescription.update t addr sd = dropServer t addr
    ∨ TopologyDescription.update t addr sd = updateRSFromPrimary t addr sd
    ∨ TopologyDescription.update t addr sd = updateRSMember t addr sd := by
  by_cases hss2 : t.single_seed = true <;>
  cases htt : t.ttype <;> cases hst : sd.stype <;>
    simp [TopologyDescription.update, hh, htt, hst, hss2]

theorem updateRSFromPrimary_delta (t : TopologyDescription) (addr : Address)
    (sd : ServerDescription) (a : Address) (hh : hasSrv t.servers addr = true) :
    (a ∈ (updateRSFromPrimary t addr sd).2.1 ↔
      a ∈ srvAddresses (updateRSFromPrimary t addr sd).1.servers ∧
        a ∉ srvAddresses t.servers)
    ∧ (a ∈ (updateRSFromPrimary t addr sd).2.2 ↔
      a ∈ srvAddresses t.servers ∧
        a ∉ srvAddresses (updateRSFromPrimary t addr sd).1.servers) := by
  unfold updateRSFromPrimary
  by_cases hnm : nameMismatch t sd = true
  · rw [if_pos hnm]
    exact removal_delta t.servers addr hh a
  · rw [if_neg hnm]
    by_cases hs : pairLt sd.set_version sd.election_id t.max_set_version
        t.max_election_id = true
    · rw [if_pos hs]
      exact install_delta t.servers addr (freshUnknown addr) hh a
    · rw [if_neg hs]
      show (a ∈ (keepList addr sd).filter (fun x => !hasSrv t.servers x) ↔
          a ∈ srvAddresses (primaryRebuild t addr sd) ∧ a ∉ srvAddresses t.servers)
        ∧ (a ∈ (srvAddresses t.servers).filter (fun x => !(decide (x ∈ keepList addr sd))) ↔
          a ∈ srvAddresses t.servers ∧ a ∉ srvAddresses (primaryRebuild t addr sd))
      rw [srvAddresses_primaryRebuild]
      constructor
      · rw [List.mem_filter]
        rw [mem_srvAddresses_iff_hasSrv]
        constructor
        · rintro ⟨hk, hf⟩
          refine ⟨hk, ?_⟩
          intro hmem
          rw [hmem] at hf
          cases hf
        · rintro ⟨hk, hnot⟩
          refine ⟨hk, ?_⟩
          cases hb : hasSrv t.servers a
          · rfl
          · exact absurd hb hnot
      · rw [List.mem_filter]
        constructor
        · rintro ⟨hmem, hf⟩
          refine ⟨hmem, ?_⟩
          intro hk
          simp [hk] at hf
        · rintro ⟨hmem, hnot⟩
          refine ⟨hmem, ?_⟩
          simp [hnot]

theorem updateRSMember_delta (t : TopologyDescription) (addr : Address)
    (sd : ServerDescription) (a : Address) (hh : hasSrv t.servers addr = true) :
    (a ∈ (updateRSMember t addr sd).2.1 ↔
      a ∈ srvAddresses (updateRSMember t addr sd).1.servers ∧
        a ∉ srvAddresses t.servers)
    ∧ (a ∈ (updateRSMember t addr sd).2.2 ↔
      a ∈ srvAddresses t.servers ∧
        a ∉ srvAddresses (updateRSMember t addr sd).1.servers) := by
  unfold updateRSMember
  by_cases hnm : nameMismatch t sd = true
  · rw [if_pos hnm]
    exact removal_delta t.servers addr hh a
  · rw [if_neg hnm]
    show (a ∈ memberAdds t addr sd ↔
        a ∈ srvAddresses (memberRebuild t addr sd) ∧ a ∉ srvAddresses t.servers)
      ∧ (a ∈ ([] : List Address) ↔
        a ∈ srvAddresses t.servers ∧ a ∉ srvAddresses (memberRebuild t addr sd))
    have hmm : ∀ x, x ∈ srvAddresses (memberRebuild t addr sd) ↔
        x ∈ srvAddresses t.servers ∨ x ∈ memberAdds t addr sd := by
      intro x
      rw [srvAddresses_memberRebuild, List.mem_append,
        srvAddresses_setSrv_of_has t.servers addr sd hh]
    have hadds : ∀ x, x ∈ memberAdds t addr sd → ¬ x ∈ srvAddresses t.servers := by
      intro x hx hmem
      unfold memberAdds at hx
      rcases List.mem_filter.mp hx with ⟨_, hf⟩
      rw [mem_srvAddresses_iff_hasSrv] at hmem
      rw [← hasSrv_setSrv_eq t.servers addr sd hh x] at hmem
      rw [hmem] at hf
      cases hf
    constructor
    · rw [hmm a]
      constructor
      · intro hx
        exact ⟨Or.inr hx, hadds a hx⟩
      · rintro ⟨hor | hor, hnot⟩
        · exact absurd hor hnot
        · exact hor
    · simp only [List.not_mem_nil, false_iff]
      rintro ⟨hmem, hnot⟩
      exact hnot ((hmm a).mpr (Or.inl hmem))

/-- C2: the update algorithm is modelled as the pure function
`update(current_topology, address, new_server_description)` returning
`(new_topology, additions, removals)`; its value is determined by these
three arguments alone (the input topology value is untouched, by the value
semantics of the embedding), and all membership change is expressed in the
return value: the returned additions are exactly the addresses tracked
after but not before the update, and the returned removals exactly those
tracked before but not after. -/
theorem update_delta_characterization (t : TopologyDescription) (addr : Address)
    (sd : ServerDescription) (a : Address) :
    (a ∈ (TopologyDescription.update t addr sd).2.1 ↔
      a ∈ srvAddresses (TopologyDescription.update t addr sd).1.servers ∧
        a ∉ srvAddresses t.servers)
    ∧ (a ∈ (TopologyDescription.update t addr sd).2.2 ↔
      a ∈ srvAddresses t.servers ∧
        a ∉ srvAddresses (TopologyDescription.update t addr sd).1.servers) := by
  by_cases hh : hasSrv t.servers addr = true
  · rcases update_branches t addr sd hh with heq | heq | heq | heq | heq | heq | heq | heq <;>
      rw [heq] <;>
      first
      | exact install_delta t.servers addr sd hh a
      | exact removal_delta t.servers addr hh a
      | exact updateRSFromPrimary_delta t addr sd a hh
      | exact updateRSMember_delta t addr sd a hh
  · have hh' : hasSrv t.servers addr = false := by simpa using hh
    rw [show TopologyDescription.update t addr sd = (t, [], []) from by
      simp [TopologyDescription.update, hh']]
    simp

/-- Witness for C2: in scenario B's first update the primary's membership
report adds exactly the two newly discovered addresses and removes none. -/
theorem update_delta_witness :
    ("b" ∈ (TopologyDescription.update (initialTopology ["a"] none)
        "a" (exPrimary "a" "rs0" 1 1 ["a", "b", "c"])).2.1
      ↔ ("b" ∈ srvAddresses (TopologyDescription.update (initialTopology ["a"] none)
        "a" (exPrimary "a" "rs0" 1 1 ["a", "b", "c"])).1.servers
        ∧ "b" ∉ srvAddresses (initialTopology ["a"] none).servers))
    ∧ "b" ∈ (TopologyDescription.update (initialTopology ["a"] none)
        "a" (exPrimary "a" "rs0" 1 1 ["a", "b", "c"])).2.1 := by
  constructor
  · exact (update_delta_characterization (initialTopology ["a"] none) "a"
      (exPrimary "a" "rs0" 1 1 ["a", "b", "c"]) "b").1
  · decide

theorem update_ignore (t : TopologyDescription) (addr : Address) (sd : ServerDescription)
    (hh : hasSrv t.servers addr = false) :
    TopologyDescription.update t addr sd = (t, [], []) := by
  simp [TopologyDescription.update, hh]

theorem update_single (t : TopologyDescription) (addr : Address) (sd : ServerDescription)
    (htt : t.ttype = TopologyType.Single) (hh : hasSrv t.servers addr = true) :
    TopologyDescription.update t addr sd =
      ({ t with servers := setSrv t.servers addr sd }, [], []) := by
  cases hst : sd.stype <;> simp [TopologyDescription.update, hh, htt, hst]

theorem update_sharded_keep (t : TopologyDescription) (addr : Address) (sd : ServerDescription)
    (htt : t.ttype = TopologyType.Sharded) (hh : hasSrv t.servers addr = true)
    (hst : sd.stype = ServerType.Mongos ∨ sd.stype = ServerType.Unknown ∨
      sd.stype = ServerType.RSGhost ∨ sd.stype = ServerType.PossiblePrimary) :
    TopologyDescription.update t addr sd =
      ({ t with servers := setSrv t.servers addr sd }, [], []) := by
  rcases hst with h | h | h | h <;> simp [TopologyDescription.update, hh, htt, h]

theorem update_unknown_inert (t : TopologyDescription) (addr : Address) (sd : ServerDescription)
    (htt : t.ttype = TopologyType.Unknown) (hh : hasSrv t.servers addr = true)
    (hst : sd.stype = ServerType.Unknown ∨ sd.stype = ServerType.RSGhost ∨
      sd.stype = ServerType.PossiblePrimary) :
    TopologyDescription.update t addr sd =
      ({ t with servers := setSrv t.servers addr sd }, [], []) := by
  rcases hst with h | h | h <;> simp [TopologyDescription.update, hh, htt, h]

theorem update_unknown_mongos (t : TopologyDescription) (addr : Address) (sd : ServerDescription)
    (htt : t.ttype = TopologyType.Unknown) (hh : hasSrv t.servers addr = true)
    (hst : sd.stype = ServerType.Mongos) :
    TopologyDescription.update t addr sd =
      ({ t with ttype := TopologyType.Sharded, servers := setSrv t.servers addr sd }, [], []) := by
  simp [TopologyDescription.update, hh, htt, hst]

theorem update_rs_inert (t : TopologyDescription) (addr : Address) (sd : ServerDescription)
    (htt : t.ttype = TopologyType.ReplicaSetNoPrimary ∨
      t.ttype = TopologyType.ReplicaSetWithPrimary)
    (hh : hasSrv t.servers addr = true)
    (hst : sd.stype = ServerType.Unknown ∨ sd.stype = ServerType.RSGhost ∨
      sd.stype = ServerType.PossiblePrimary) :
    TopologyDescription.update t addr sd =
      ({ t with
          ttype := checkIfHasPrimary (setSrv t.servers addr sd)
          servers := setSrv t.servers addr sd }, [], []) := by
  rcases htt with ht | ht <;> rcases hst with h | h | h <;>
    simp [TopologyDescription.update, hh, ht, h]

theorem update_eq_rsMember (t : TopologyDescription) (addr : Address) (sd : ServerDescription)
    (hh : hasSrv t.servers addr = true)
    (htt : t.ttype = TopologyType.Unknown ∨ t.ttype = TopologyType.ReplicaSetNoPrimary ∨
      t.ttype = TopologyType.ReplicaSetWithPrimary)
    (hst : sd.stype = ServerType.RSSecondary ∨ sd.stype = ServerType.RSArbiter ∨
      sd.stype = ServerType.RSOther) :
    TopologyDescription.update t addr sd = updateRSMember t addr sd := by
  rcases htt with ht | ht | ht <;> rcases hst with h | h | h <;>
    simp [TopologyDescription.update, hh, ht, h]

theorem pairLt_irrefl (sv eid : Option Nat) : pairLt sv eid sv eid = false := by
  have h : ∀ x : Option Nat, optNatLt x x = false := by
    intro x
    cases x with
    | none => rfl
    | some n => simp [optNatLt]
  simp [pairLt, h]

theorem recordName_eq_self (t : TopologyDescription) (sd : ServerDescription)
    (h : t.set_name = sd.set_name ∨ ∃ s, t.set_name = some s) :
    recordName t sd = t := by
  unfold recordName
  cases hn : t.set_name with
  | some s => rfl
  | none =>
      rcases h with h | ⟨s, h⟩
      · rw [hn] at h
        show { t with set_name := sd.set_name } = t
        rw [← h, ← hn]
      · rw [hn] at h
        cases h

theorem recordName_after (t t2 : TopologyDescription) (sd : ServerDescription)
    (h : t2.set_name = (recordName t sd).set_name) : recordName t2 sd = t2 := by
  apply recordName_eq_self
  cases hs : t.set_name with
  | none => exact Or.inl (by rw [h, recordName_name_of_none t sd hs])
  | some s => exact Or.inr ⟨s, by rw [h, recordName_name_of_some t sd s hs]⟩

theorem mapKeys_congr (l : List Address) (f g : Address → ServerDescription)
    (h : ∀ a ∈ l, f a = g a) :
    l.map (fun a => (a, f a)) = l.map (fun a => (a, g a)) := by
  induction l with
  | nil => rfl
  | cons x xs ih =>
      simp only [List.map_cons]
      rw [h x (List.mem_cons_self x xs), ih (fun a ha => h a (List.mem_cons_of_mem x ha))]

theorem hasSrv_memberRebuild_self (t : TopologyDescription) (addr : Address)
    (sd : ServerDescription) : hasSrv (memberRebuild t addr sd) addr = true := by
  unfold memberRebuild
  rw [hasSrv_append, hasSrv_setSrv_self]
  rfl

theorem hasSrv_memberRebuild_reported (t : TopologyDescription) (addr : Address)
    (sd : ServerDescription) (a : Address) (ha : a ∈ reportedHosts sd) :
    hasSrv (memberRebuild t addr sd) a = true := by
  unfold memberRebuild
  rw [hasSrv_append]
  by_cases hs : hasSrv (setSrv t.servers addr sd) a = true
  · rw [hs]
    rfl
  · have hs' : hasSrv (setSrv t.servers addr sd) a = false :=
      Bool.eq_false_iff.mpr hs
    have hmem : a ∈ memberAdds t addr sd := by
      unfold memberAdds
      exact List.mem_filter.mpr ⟨ha, by rw [hs']; rfl⟩
    have hmap : hasSrv ((memberAdds t addr sd).map (fun a => (a, freshUnknown a))) a = true := by
      simp [hasSrv, lookupSrv_mapKeys, hmem]
    rw [hmap, hs']
    rfl

theorem memberRebuild_idem (t : TopologyDescription) (addr : Address) (sd : ServerDescription)
    (t2 : TopologyDescription) (hs : t2.servers = memberRebuild t addr sd) :
    memberRebuild t2 addr sd = t2.servers := by
  have hself : hasSrv t2.servers addr = true := by
    rw [hs]
    exact hasSrv_memberRebuild_self t addr sd
  have hadds : memberAdds t2 addr sd = [] := by
    unfold memberAdds
    rw [List.filter_eq_nil]
    intro a ha
    have h1 : hasSrv (setSrv t2.servers addr sd) a = hasSrv t2.servers a :=
      hasSrv_setSrv_eq t2.servers addr sd hself a
    have h2 : hasSrv t2.servers a = true := by
      rw [hs]
      exact hasSrv_memberRebuild_reported t addr sd a ha
    simp [h1, h2]
  unfold memberRebuild
  rw [hadds]
  simp only [List.map_nil, List.append_nil]
  rw [hs]
  show setSrv (memberRebuild t addr sd) addr sd = memberRebuild t addr sd
  unfold memberRebuild
  rw [setSrv_append_left _ _ _ _ (hasSrv_setSrv_self t.servers addr sd), setSrv_setSrv]

theorem updateRSMember_fix (t2 : TopologyDescription) (addr : Address) (sd : ServerDescription)
    (hnm : ¬ nameMismatch t2 sd = true)
    (hrec : recordName t2 sd = t2)
    (hmr : memberRebuild t2 addr sd = t2.servers)
    (htt : t2.ttype = checkIfHasPrimary t2.servers) :
    (updateRSMember t2 addr sd).1 = t2 := by
  unfold updateRSMember
  rw [if_neg hnm]
  show ({ recordName t2 sd with
      ttype := checkIfHasPrimary (memberRebuild t2 addr sd)
      servers := memberRebuild t2 addr sd } : TopologyDescription) = t2
  rw [hrec, hmr, ← htt]

theorem hasSrv_primaryRebuild_self (t : TopologyDescription) (addr : Address)
    (sd : ServerDescription) : hasSrv (primaryRebuild t addr sd) addr = true := by
  have hmem : addr ∈ keepList addr sd := by
    unfold keepList
    exact List.mem_dedup.mpr (List.mem_cons_self _ _)
  simp [hasSrv, primaryRebuild, lookupSrv_mapKeys, hmem]

theorem primaryRebuildEntry_ne (t : TopologyDescription) (addr : Address)
    (sd : ServerDescription) (a : Address) (ha : ¬ a = addr) :
    primaryRebuildEntry t addr sd a =
      match lookupSrv t.servers a with
      | some d => if d.stype = ServerType.RSPrimary then freshUnknown a else d
      | none => freshUnknown a := by
  unfold primaryRebuildEntry
  rw [if_neg ha]

theorem primaryRebuild_idem (t : TopologyDescription) (addr : Address) (sd : ServerDescription)
    (t2 : TopologyDescription) (hs : t2.servers = primaryRebuild t addr sd) :
    primaryRebuild t2 addr sd = primaryRebuild t addr sd := by
  unfold primaryRebuild
  apply mapKeys_congr
  intro a ha
  by_cases haddr : a = addr
  · subst haddr
    unfold primaryRebuildEntry
    rw [if_pos rfl, if_pos rfl]
  · have hlook : lookupSrv t2.servers a = some (primaryRebuildEntry t addr sd a) := by
      rw [hs, lookupSrv_primaryRebuild, if_pos ha]
    have hnp : ¬ (primaryRebuildEntry t addr sd a).stype = ServerType.RSPrimary := by
      intro hp
      exact haddr (primaryRebuildEntry_primary_imp t addr sd a hp)
    rw [primaryRebuildEntry_ne t2 addr sd a haddr, hlook]
    show (if (primaryRebuildEntry t addr sd a).stype = ServerType.RSPrimary
        then freshUnknown a else primaryRebuildEntry t addr sd a) =
      primaryRebuildEntry t addr sd a
    rw [if_neg hnp]

theorem updateRSFromPrimary_stale_fix (t2 : TopologyDescription) (addr : Address)
    (sd : ServerDescription)
    (hnm : ¬ nameMismatch t2 sd = true)
    (hstale : pairLt sd.set_version sd.election_id t2.max_set_version
      t2.max_election_id = true)
    (hrec : recordName t2 sd = t2)
    (hsrv : setSrv t2.servers addr (freshUnknown addr) = t2.servers)
    (htt : t2.ttype = checkIfHasPrimary t2.servers) :
    (updateRSFromPrimary t2 addr sd).1 = t2 := by
  unfold updateRSFromPrimary
  rw [if_neg hnm, if_pos hstale]
  show ({ recordName t2 sd with
      ttype := checkIfHasPrimary (setSrv t2.servers addr (freshUnknown addr))
      servers := setSrv t2.servers addr (freshUnknown addr) } : TopologyDescription) = t2
  rw [hrec, hsrv, ← htt]

theorem updateRSFromPrimary_accept_fix (t2 : TopologyDescription) (addr : Address)
    (sd : ServerDescription)
    (hnm : ¬ nameMismatch t2 sd = true)
    (hrec : recordName t2 sd = t2)
    (hmax1 : t2.max_set_version = sd.set_version)
    (hmax2 : t2.max_election_id = sd.election_id)
    (hpr : primaryRebuild t2 addr sd = t2.servers)
    (htt : t2.ttype = checkIfHasPrimary t2.servers) :
    (updateRSFromPrimary t2 addr sd).1 = t2 := by
  unfold updateRSFromPrimary
  rw [if_neg hnm, hmax1, hmax2, pairLt_irrefl, if_neg Bool.false_ne_true]
  show ({ recordName t2 sd with
      ttype := checkIfHasPrimary (primaryRebuild t2 addr sd)
      max_set_version := sd.set_version
      max_election_id := sd.election_id
      servers := primaryRebuild t2 addr sd } : TopologyDescription) = t2
  rw [hrec, hpr, ← hmax1, ← hmax2, ← htt]

theorem rsMember_update_idem (t : TopologyDescription) (addr : Address) (sd : ServerDescription)
    (hst : sd.stype = ServerType.RSSecondary ∨ sd.stype = ServerType.RSArbiter ∨
      sd.stype = ServerType.RSOther) :
    (TopologyDescription.update (updateRSMember t addr sd).1 addr sd).1 =
      (updateRSMember t addr sd).1 := by
  by_cases hnm : nameMismatch t sd = true
  · have hd : updateRSMember t addr sd = dropServer t addr := by
      unfold updateRSMember
      rw [if_pos hnm]
    rw [hd, update_ignore _ _ _ (hasSrv_removeSrv_self t.servers addr)]
  · have hnmf : nameMismatch t sd = false := Bool.eq_false_iff.mpr hnm
    have hd : (updateRSMember t addr sd).1 = { recordName t sd with
        ttype := checkIfHasPrimary (memberRebuild t addr sd)
        servers := memberRebuild t addr sd } := by
      unfold updateRSMember
      rw [if_neg hnm]
    rw [hd]
    have hnm2 : ¬ nameMismatch ({ recordName t sd with
        ttype := checkIfHasPrimary (memberRebuild t addr sd)
        servers := memberRebuild t addr sd } : TopologyDescription) sd = true := by
      have h1 : nameMismatch ({ recordName t sd with
          ttype := checkIfHasPrimary (memberRebuild t addr sd)
          servers := memberRebuild t addr sd } : TopologyDescription) sd =
          nameMismatch (recordName t sd) sd :=
        nameMismatch_congr _ _ sd rfl
      rw [h1, nameMismatch_recordName t sd hnmf]
      exact Bool.false_ne_true
    rw [update_eq_rsMember
      { recordName t sd with
        ttype := checkIfHasPrimary (memberRebuild t addr sd)
        servers := memberRebuild t addr sd } addr sd
      (hasSrv_memberRebuild_self t addr sd)
      (Or.inr (checkIfHasPrimary_cases (memberRebuild t addr sd)))
      hst]
    exact updateRSMember_fix
      { recordName t sd with
        ttype := checkIfHasPrimary (memberRebuild t addr sd)
        servers := memberRebuild t addr sd } addr sd
      hnm2
      (recordName_after t _ sd rfl)
      (memberRebuild_idem t addr sd _ rfl)
      rfl

theorem rsPrimary_update_idem (t : TopologyDescription) (addr : Address) (sd : ServerDescription)
    (hst : sd.stype = ServerType.RSPrimary) :
    (TopologyDescription.update (updateRSFromPrimary t addr sd).1 addr sd).1 =
      (updateRSFromPrimary t addr sd).1 := by
  by_cases hnm : nameMismatch t sd = true
  · have hd : updateRSFromPrimary t addr sd = dropServer t addr := by
      unfold updateRSFromPrimary
      rw [if_pos hnm]
    rw [hd, update_ignore _ _ _ (hasSrv_removeSrv_self t.servers addr)]
  · have hnmf : nameMismatch t sd = false := Bool.eq_false_iff.mpr hnm
    by_cases hstale : pairLt sd.set_version sd.election_id t.max_set_version
        t.max_election_id = true
    · have hd : (updateRSFromPrimary t addr sd).1 = { recordName t sd with
          ttype := checkIfHasPrimary (setSrv t.servers addr (freshUnknown addr))
          servers := setSrv t.servers addr (freshUnknown addr) } := by
        unfold updateRSFromPrimary
        rw [if_neg hnm, if_pos hstale]
      rw [hd]
      have hnm2 : ¬ nameMismatch ({ recordName t sd with
          ttype := checkIfHasPrimary (setSrv t.servers addr (freshUnknown addr))
          servers := setSrv t.servers addr (freshUnknown addr) } :
            TopologyDescription) sd = true := by
        have h1 : nameMismatch ({ recordName t sd with
            ttype := checkIfHasPrimary (setSrv t.servers addr (freshUnknown addr))
            servers := setSrv t.servers addr (freshUnknown addr) } :
              TopologyDescription) sd = nameMismatch (recordName t sd) sd :=
          nameMismatch_congr _ _ sd rfl
        rw [h1, nameMismatch_recordName t sd hnmf]
        exact Bool.false_ne_true
      rw [update_eq_rsPrimary
        { recordName t sd with
          ttype := checkIfHasPrimary (setSrv t.servers addr (freshUnknown addr))
          servers := setSrv t.servers addr (freshUnknown addr) } addr sd
        (hasSrv_setSrv_self t.servers addr (freshUnknown addr))
        hst
        (Or.inr (checkIfHasPrimary_cases (setSrv t.servers addr (freshUnknown addr))))]
      refine updateRSFromPrimary_stale_fix
        { recordName t sd with
          ttype := checkIfHasPrimary (setSrv t.servers addr (freshUnknown addr))
          servers := setSrv t.servers addr (freshUnknown addr) } addr sd
        hnm2 ?_
        (recordName_after t _ sd rfl)
        (setSrv_setSrv t.servers addr (freshUnknown addr))
        rfl
      show pairLt sd.set_version sd.election_id (recordName t sd).max_set_version
        (recordName t sd).max_election_id = true
      rw [recordName_max_sv, recordName_max_eid]
      exact hstale
    · have hd : (updateRSFromPrimary t addr sd).1 = { recordName t sd with
          ttype := checkIfHasPrimary (primaryRebuild t addr sd)
          max_set_version := sd.set_version
          max_election_id := sd.election_id
          servers := primaryRebuild t addr sd } := by
        unfold updateRSFromPrimary
        rw [if_neg hnm, if_neg hstale]
      rw [hd]
      have hnm2 : ¬ nameMismatch ({ recordName t sd with
          ttype := checkIfHasPrimary (primaryRebuild t addr sd)
          max_set_version := sd.set_version
          max_election_id := sd.election_id
          servers := primaryRebuild t addr sd } : TopologyDescription) sd = true := by
        have h1 : nameMismatch ({ recordName t sd with
            ttype := checkIfHasPrimary (primaryRebuild t addr sd)
            max_set_version := sd.set_version
            max_election_id := sd.election_id
            servers := primaryRebuild t addr sd } : TopologyDescription) sd =
            nameMismatch (recordName t sd) sd :=
          nameMismatch_congr _ _ sd rfl
        rw [h1, nameMismatch_recordName t sd hnmf]
        exact Bool.false_ne_true
      rw [update_eq_rsPrimary
        { recordName t sd with
          ttype := checkIfHasPrimary (primaryRebuild t addr sd)
          max_set_version := sd.set_version
          max_election_id := sd.election_id
          servers := primaryRebuild t addr sd } addr sd
        (hasSrv_primaryRebuild_self t addr sd)
        hst
        (Or.inr (checkIfHasPrimary_cases (primaryRebuild t addr sd)))]
      exact updateRSFromPrimary_accept_fix
        { recordName t sd with
          ttype := checkIfHasPrimary (primaryRebuild t addr sd)
          max_set_version := sd.set_version
          max_election_id := sd.election_id
          servers := primaryRebuild t addr sd } addr sd
        hnm2
        (recordName_after t _ sd rfl)
        rfl
        rfl
        (primaryRebuild_idem t addr sd _ rfl)
        rfl

theorem update_install_fix (t2 : TopologyDescription) (addr : Address) (sd : ServerDescription)
    (hd : TopologyDescription.update t2 addr sd =
      ({ t2 with servers := setSrv t2.servers addr sd }, [], []))
    (hsrv : setSrv t2.servers addr sd = t2.servers) :
    (TopologyDescription.update t2 addr sd).1 = t2 := by
  rw [hd]
  show ({ t2 with servers := setSrv t2.servers addr sd } : TopologyDescription) = t2
  rw [hsrv]

theorem update_install_ttype_fix (t2 : TopologyDescription) (addr : Address)
    (sd : ServerDescription)
    (hd : TopologyDescription.update t2 addr sd =
      ({ t2 with
          ttype := checkIfHasPrimary (setSrv t2.servers addr sd)
          servers := setSrv t2.servers addr sd }, [], []))
    (hsrv : setSrv t2.servers addr sd = t2.servers)
    (htt : t2.ttype = checkIfHasPrimary t2.servers) :
    (TopologyDescription.update t2 addr sd).1 = t2 := by
  rw [hd]
  show ({ t2 with
      ttype := checkIfHasPrimary (setSrv t2.servers addr sd)
      servers := setSrv t2.servers addr sd } : TopologyDescription) = t2
  rw [hsrv, ← htt]

/-- C8: feeding the same server description for the same address into the
update algorithm twice yields the same topology as feeding it once: the
second application is the identity on the topology component. -/
theorem update_idempotent (t : TopologyDescription) (addr : Address)
    (sd : ServerDescription) :
    (TopologyDescription.update (TopologyDescription.update t addr sd).1 addr sd).1 =
      (TopologyDescription.update t addr sd).1 := by
  by_cases hh : hasSrv t.servers addr = true
  · cases htt : t.ttype with
    | Single =>
        have h1 : (TopologyDescription.update t addr sd).1 =
            { t with servers := setSrv t.servers addr sd } := by
          rw [update_single t addr sd htt hh]
        rw [h1]
        exact update_install_fix _ addr sd
          (update_single _ addr sd htt (hasSrv_setSrv_self t.servers addr sd))
          (setSrv_setSrv t.servers addr sd)
    | Sharded =>
        cases hst : sd.stype with
        | Mongos =>
            have h1 : (TopologyDescription.update t addr sd).1 =
                { t with servers := setSrv t.servers addr sd } := by
              rw [update_sharded_keep t addr sd htt hh (by simp [hst])]
            rw [h1]
            exact update_install_fix _ addr sd
              (update_sharded_keep _ addr sd htt
                (hasSrv_setSrv_self t.servers addr sd) (by simp [hst]))
              (setSrv_setSrv t.servers addr sd)
        | Unknown =>
            have h1 : (TopologyDescription.update t addr sd).1 =
                { t with servers := setSrv t.servers addr sd } := by
              rw [update_sharded_keep t addr sd htt hh (by simp [hst])]
            rw [h1]
            exact update_install_fix _ addr sd
              (update_sharded_keep _ addr sd htt
                (hasSrv_setSrv_self t.servers addr sd) (by simp [hst]))
              (setSrv_setSrv t.servers addr sd)
        | RSGhost =>
            have h1 : (TopologyDescription.update t addr sd).1 =
                { t with servers := setSrv t.servers addr sd } := by
              rw [update_sharded_keep t addr sd htt hh (by simp [hst])]
            rw [h1]
            exact update_install_fix _ addr sd
              (update_sharded_keep _ addr sd htt
                (hasSrv_setSrv_self t.servers addr sd) (by simp [hst]))
              (setSrv_setSrv t.servers addr sd)
        | PossiblePrimary =>
            have h1 : (TopologyDescription.update t addr sd).1 =
                { t with servers := setSrv t.servers addr sd } := by
              rw [update_sharded_keep t addr sd htt hh (by simp [hst])]
            rw [h1]
            exact update_install_fix _ addr sd
              (update_sharded_keep _ addr sd htt
                (hasSrv_setSrv_self t.servers addr sd) (by simp [hst]))
              (setSrv_setSrv t.servers addr sd)
        | Standalone =>
            have h1 : (TopologyDescription.update t addr sd).1 =
                { t with servers := removeSrv t.servers addr } := by
              simp [TopologyDescription.update, hh, htt, hst]
            rw [h1]
            rw [update_ignore ({ t with servers := removeSrv t.servers addr }) addr sd
              (hasSrv_removeSrv_self t.servers addr)]
        | RSPrimary =>
            have h1 : (TopologyDescription.update t addr sd).1 =
                { t with servers := removeSrv t.servers addr } := by
              simp [TopologyDescription.update, hh, htt, hst]
            rw [h1]
            rw [update_ignore ({ t with servers := removeSrv t.servers addr }) addr sd
              (hasSrv_removeSrv_self t.servers addr)]
        | RSSecondary =>
            have h1 : (TopologyDescription.update t addr sd).1 =
                { t with servers := removeSrv t.servers addr } := by
              simp [TopologyDescription.update, hh, htt, hst]
            rw [h1]
            rw [update_ignore ({ t with servers := removeSrv t.servers addr }) addr sd
              (hasSrv_removeSrv_self t.servers addr)]
        | RSArbiter =>
            have h1 : (TopologyDescription.update t addr sd).1 =
                { t with servers := removeSrv t.servers addr } := by
              simp [TopologyDescription.update, hh, htt, hst]
            rw [h1]
            rw [update_ignore ({ t with servers := removeSrv t.servers addr }) addr sd
              (hasSrv_removeSrv_self t.servers addr)]
        | RSOther =>
            have h1 : (TopologyDescription.update t addr sd).1 =
                { t with servers := removeSrv t.servers addr } := by
              simp [TopologyDescription.update, hh, htt, hst]
            rw [h1]
            rw [update_ignore ({ t with servers := removeSrv t.servers addr }) addr sd
              (hasSrv_removeSrv_self t.servers addr)]
    | Unknown =>
        cases hst : sd.stype with
        | Unknown =>
            have h1 : (TopologyDescription.update t addr sd).1 =
                { t with servers := setSrv t.servers addr sd } := by
              rw [update_unknown_inert t addr sd htt hh (by simp [hst])]
            rw [h1]
            exact update_install_fix _ addr sd
              (update_unknown_inert _ addr sd htt
                (hasSrv_setSrv_self t.servers addr sd) (by simp [hst]))
              (setSrv_setSrv t.servers addr sd)
        | RSGhost =>
            have h1 : (TopologyDescription.update t addr sd).1 =
                { t with servers := setSrv t.servers addr sd } := by
              rw [update_unknown_inert t addr sd htt hh (by simp [hst])]
            rw [h1]
            exact update_install_fix _ addr sd
              (update_unknown_inert _ addr sd htt
                (hasSrv_setSrv_self t.servers addr sd) (by simp [hst]))
              (setSrv_setSrv t.servers addr sd)
        | PossiblePrimary =>
            have h1 : (TopologyDescription.update t addr sd).1 =
                { t with servers := setSrv t.servers addr sd } := by
              rw [update_unknown_inert t addr sd htt hh (by simp [hst])]
            rw [h1]
            exact update_install_fix _ addr sd
              (update_unknown_inert _ addr sd htt
                (hasSrv_setSrv_self t.servers addr sd) (by simp [hst]))
              (setSrv_setSrv t.servers addr sd)
        | Standalone =>
            by_cases hss : t.single_seed = true
            · have h1 : (TopologyDescription.update t addr sd).1 =
                  { t with ttype := TopologyType.Single
                           servers := setSrv t.servers addr sd } := by
                simp [TopologyDescription.update, hh, htt, hst, hss]
              rw [h1]
              exact update_install_fix _ addr sd
                (update_single _ addr sd rfl (hasSrv_setSrv_self t.servers addr sd))
                (setSrv_setSrv t.servers addr sd)
            · have h1 : (TopologyDescription.update t addr sd).1 =
                  { t with servers := removeSrv t.servers addr } := by
                simp [TopologyDescription.update, hh, htt, hst, hss]
              rw [h1]
              rw [update_ignore ({ t with servers := removeSrv t.servers addr }) addr sd
                (hasSrv_removeSrv_self t.servers addr)]
        | Mongos =>
            have h1 : (TopologyDescription.update t addr sd).1 =
                { t with ttype := TopologyType.Sharded
                         servers := setSrv t.servers addr sd } := by
              rw [update_unknown_mongos t addr sd htt hh hst]
            rw [h1]
            exact update_install_fix _ addr sd
              (update_sharded_keep _ addr sd rfl
                (hasSrv_setSrv_self t.servers addr sd) (by simp [hst]))
              (setSrv_setSrv t.servers addr sd)
        | RSPrimary =>
            rw [update_eq_rsPrimary t addr sd hh hst (by simp [htt])]
            exact rsPrimary_update_idem t addr sd hst
        | RSSecondary =>
            rw [update_eq_rsMember t addr sd hh (by simp [htt]) (by simp [hst])]
            exact rsMember_update_idem t addr sd (by simp [hst])
        | RSArbiter =>
            rw [update_eq_rsMember t addr sd hh (by simp [htt]) (by simp [hst])]
            exact rsMember_update_idem t addr sd (by simp [hst])
        | RSOther =>
            rw [update_eq_rsMember t addr sd hh (by simp [htt]) (by simp [hst])]
            exact rsMember_update_idem t addr sd (by simp [hst])
    | ReplicaSetNoPrimary =>
        cases hst : sd.stype with
        | Unknown =>
            have h1 : (TopologyDescription.update t addr sd).1 =
                { t with ttype := checkIfHasPrimary (setSrv t.servers addr sd)
                         servers := setSrv t.servers addr sd } := by
              rw [update_rs_inert t addr sd (by simp [htt]) hh (by simp [hst])]
            rw [h1]
            exact update_install_ttype_fix _ addr sd
              (update_rs_inert _ addr sd
                (checkIfHasPrimary_cases (setSrv t.servers addr sd))
                (hasSrv_setSrv_self t.servers addr sd) (by simp [hst]))
              (setSrv_setSrv t.servers addr sd)
              rfl
        | RSGhost =>
            have h1 : (TopologyDescription.update t addr sd).1 =
                { t with ttype := checkIfHasPrimary (setSrv t.servers addr sd)
                         servers := setSrv t.servers addr sd } := by
              rw [update_rs_inert t addr sd (by simp [htt]) hh (by simp [hst])]
            rw [h1]
            exact update_install_ttype_fix _ addr sd
              (update_rs_inert _ addr sd
                (checkIfHasPrimary_cases (setSrv t.servers addr sd))
                (hasSrv_setSrv_self t.servers addr sd) (by simp [hst]))
              (setSrv_setSrv t.servers addr sd)
              rfl
        | PossiblePrimary =>
            have h1 : (TopologyDescription.update t addr sd).1 =
                { t with ttype := checkIfHasPrimary (setSrv t.servers addr sd)
                         servers := setSrv t.servers addr sd } := by
              rw [update_rs_inert t addr sd (by simp [htt]) hh (by simp [hst])]
            rw [h1]
            exact update_install_ttype_fix _ addr sd
              (update_rs_inert _ addr sd
                (checkIfHasPrimary_cases (setSrv t.servers addr sd))
                (hasSrv_setSrv_self t.servers addr sd) (by simp [hst]))
              (setSrv_setSrv t.servers addr sd)
              rfl
        | Standalone =>
            have h1 : (TopologyDescription.update t addr sd).1 = (dropServer t addr).1 := by
              simp [TopologyDescription.update, hh, htt, hst]
            rw [h1]
            rw [update_ignore (dropServer t addr).1 addr sd
              (hasSrv_removeSrv_self t.servers addr)]
        | Mongos =>
            have h1 : (TopologyDescription.update t addr sd).1 = (dropServer t addr).1 := by
              simp [TopologyDescription.update, hh, htt, hst]
            rw [h1]
            rw [update_ignore (dropServer t addr).1 addr sd
              (hasSrv_removeSrv_self t.servers addr)]
        | RSPrimary =>
            rw [update_eq_rsPrimary t addr sd hh hst (by simp [htt])]
            exact rsPrimary_update_idem t addr sd hst
        | RSSecondary =>
            rw [update_eq_rsMember t addr sd hh (by simp [htt]) (by simp [hst])]
            exact rsMember_update_idem t addr sd (by simp [hst])
        | RSArbiter =>
            rw [update_eq_rsMember t addr sd hh (by simp [htt]) (by simp [hst])]
            exact rsMember_update_idem t addr sd (by simp [hst])
        | RSOther =>
            rw [update_eq_rsMember t addr sd hh (by simp [htt]) (by simp [hst])]
            exact rsMember_update_idem t addr sd (by simp [hst])
    | ReplicaSetWithPrimary =>
        cases hst : sd.stype with
        | Unknown =>
            have h1 : (TopologyDescription.update t addr sd).1 =
                { t with ttype := checkIfHasPrimary (setSrv t.servers addr sd)
                         servers := setSrv t.servers addr sd } := by
              rw [update_rs_inert t addr sd (by simp [htt]) hh (by simp [hst])]
            rw [h1]
            exact update_install_ttype_fix _ addr sd
              (update_rs_inert _ addr sd
                (checkIfHasPrimary_cases (setSrv t.servers addr sd))
                (hasSrv_setSrv_self t.servers addr sd) (by simp [hst]))
              (setSrv_setSrv t.servers addr sd)
              rfl
        | RSGhost =>
            have h1 : (TopologyDescription.update t addr sd).1 =
                { t with ttype := checkIfHasPrimary (setSrv t.servers addr sd)
                         servers := setSrv t.servers addr sd } := by
              rw [update_rs_inert t addr sd (by simp [htt]) hh (by simp [hst])]
            rw [h1]
            exact update_install_ttype_fix _ addr sd
              (update_rs_inert _ addr sd
                (checkIfHasPrimary_cases (setSrv t.servers addr sd))
                (hasSrv_setSrv_self t.servers addr sd) (by simp [hst]))
              (setSrv_setSrv t.servers addr sd)
              rfl
        | PossiblePrimary =>
            have h1 : (TopologyDescription.update t addr sd).1 =
                { t with ttype := checkIfHasPrimary (setSrv t.servers addr sd)
                         servers := setSrv t.servers addr sd } := by
              rw [update_rs_inert t addr sd (by simp [htt]) hh (by simp [hst])]
            rw [h1]
            exact update_install_ttype_fix _ addr sd
              (update_rs_inert _ addr sd
                (checkIfHasPrimary_cases (setSrv t.servers addr sd))
                (hasSrv_setSrv_self t.servers addr sd) (by simp [hst]))
              (setSrv_setSrv t.servers addr sd)
              rfl
        | Standalone =>
            have h1 : (TopologyDescription.update t addr sd).1 = (dropServer t addr).1 := by
              simp [TopologyDescription.update, hh, htt, hst]
            rw [h1]
            rw [update_ignore (dropServer t addr).1 addr sd
              (hasSrv_removeSrv_self t.servers addr)]
        | Mongos =>
            have h1 : (TopologyDescription.update t addr sd).1 = (dropServer t addr).1 := by
              simp [TopologyDescription.update, hh, htt, hst]
            rw [h1]
            rw [update_ignore (dropServer t addr).1 addr sd
              (hasSrv_removeSrv_self t.servers addr)]
        | RSPrimary =>
            rw [update_eq_rsPrimary t addr sd hh hst (by simp [htt])]
            exact rsPrimary_update_idem t addr sd hst
        | RSSecondary =>
            rw [update_eq_rsMember t addr sd hh (by simp [htt]) (by simp [hst])]
            exact rsMember_update_idem t addr sd (by simp [hst])
        | RSArbiter =>
            rw [update_eq_rsMember t addr sd hh (by simp [htt]) (by simp [hst])]
            exact rsMember_update_idem t addr sd (by simp [hst])
        | RSOther =>
            rw [update_eq_rsMember t addr sd hh (by simp [htt]) (by simp [hst])]
            exact rsMember_update_idem t addr sd (by simp [hst])
  · have hhf : hasSrv t.servers addr = false := Bool.eq_false_iff.mpr hh
    rw [update_ignore t addr sd hhf]
    show (TopologyDescription.update t addr sd).1 = t
    rw [update_ignore t addr sd hhf]
